import Mathlib

/-!
Verification of the report-generation and summarization core of the
axe-playwright / axe-webdriverio accessibility tooling.

The definitions below are a shallow embedding of the JavaScript source:

* `generateSummary` embeds `AccessibilityTester.generateSummary` from
  `axe-playwright/index.mjs`.  JavaScript objects whose values are numbers
  are embedded as association lists `List (String × Option Nat)` in
  insertion order; `none` stands for the JavaScript `NaN` produced when an
  absent property is incremented (`obj[k]++` on a missing key `k` stores
  `NaN` under `k`).
* `generateSummaryRaw` embeds the behaviour of the same function on an
  input that may lack some of the four category sequences: reading
  `.length` of an absent property aborts the function (in JavaScript a
  `TypeError` is thrown; the abstract error value `InputShapeError` stands
  for that abort).
-/

namespace Axe

/-- One affected markup location reported by a rule outcome
(`nodes` entries of the axe result; `target` is the selector path,
`html` an optional markup snippet). -/
structure AffectedNode where
  target : List String
  html : Option String
deriving DecidableEq, Repr

/-- One evaluated rule result, as produced by the axe engine.  `impact`
is `none` when the engine reports no impact (JavaScript `null`/absent). -/
structure RuleOutcome where
  id : String
  description : String
  help : String
  helpUrl : String
  impact : Option String
  tags : List String
  nodes : List AffectedNode
deriving DecidableEq, Repr

/-- The raw scan result returned by `axe.run`, restricted to the fields the
repository reads.  The four category sequences are always present here;
`RawScanResult` models the possibly-malformed shape. -/
structure ScanResult where
  url : String
  timestamp : String
  testEngineVersion : String
  passes : List RuleOutcome
  violations : List RuleOutcome
  incomplete : List RuleOutcome
  inapplicable : List RuleOutcome
deriving DecidableEq, Repr

/-- A scan-result-shaped input in which any of the four category sequences
may be absent (`none` models an absent JavaScript property). -/
structure RawScanResult where
  url : String
  timestamp : String
  testEngineVersion : String
  passes : Option (List RuleOutcome)
  violations : Option (List RuleOutcome)
  incomplete : Option (List RuleOutcome)
  inapplicable : Option (List RuleOutcome)
deriving DecidableEq, Repr

/-- A JavaScript object with number-or-NaN values, in insertion order;
`none` is `NaN`. -/
abbrev ImpactMap := List (String × Option Nat)

/-- Embedding of `summary.violationsByImpact[k]++`: an existing numeric
entry is incremented in place, an existing `NaN` entry stays `NaN`
(`NaN + 1 = NaN`), and a missing key is created holding `NaN`
(`undefined + 1 = NaN`), appended in insertion order. -/
def incImpact : ImpactMap → String → ImpactMap
  | [], k => [(k, none)]
  | (k', v) :: rest, k =>
    if k' = k then (k', v.map (· + 1)) :: rest
    else (k', v) :: incImpact rest k

/-- Value stored under key `k`; `none` means the key is absent or holds
`NaN` (both read back as a non-number in the summary). -/
def getImpact (m : ImpactMap) (k : String) : Option Nat :=
  match m with
  | [] => none
  | (k', v) :: rest => if k' = k then v else getImpact rest k

/-- Truthiness of the `violation.impact` guard `if (violation.impact)`:
an absent impact (`undefined`/`null`) and the empty string are falsy. -/
def impactTruthy : Option String → Bool
  | none => false
  | some s => decide (s ≠ "")

/-- The initial `violationsByImpact` object of `generateSummary`. -/
def initImpactMap : ImpactMap :=
  [("critical", some 0), ("serious", some 0), ("moderate", some 0), ("minor", some 0)]

/-- The `results.violations.forEach` loop of `generateSummary`, acting on
the `violationsByImpact` object. -/
def applyViolations (m : ImpactMap) (vs : List RuleOutcome) : ImpactMap :=
  vs.foldl
    (fun m v => if impactTruthy v.impact then incImpact m (v.impact.getD "") else m) m

/-- The summary object built by `AccessibilityTester.generateSummary`. -/
structure Summary where
  url : String
  timestamp : String
  browser : String
  totalElements : Nat
  passes : Nat
  violations : Nat
  incomplete : Nat
  inapplicable : Nat
  violationsByImpact : ImpactMap
deriving DecidableEq, Repr

/-- Embedding of `AccessibilityTester.generateSummary(results)`; the
`browser` argument stands for the instance field `this.browser`. -/
def generateSummary (browser : String) (results : ScanResult) : Summary :=
  { url := results.url
    timestamp := results.timestamp
    browser := browser
    totalElements := results.passes.length + results.violations.length
      + results.incomplete.length + results.inapplicable.length
    passes := results.passes.length
    violations := results.violations.length
    incomplete := results.incomplete.length
    inapplicable := results.inapplicable.length
    violationsByImpact := applyViolations initImpactMap results.violations }

/-- Abstract error signalling that `generateSummary` aborted because a
required category sequence is absent (in the source this abort is the
`TypeError` thrown by reading `.length` of `undefined`; the spec's error
taxonomy names this case `InputShapeError`).  The string records which
sequence was read first among the absent ones. -/
inductive SummarizeError where
  | InputShapeError (field : String)
deriving DecidableEq, Repr

/-- Behaviour of `generateSummary` on a possibly-malformed input: the
first absent sequence read (`passes`, then `violations`, then
`incomplete`, then `inapplicable`, the evaluation order of the
`totalElements` expression) aborts the computation. -/
def generateSummaryRaw (browser : String) (r : RawScanResult) :
    Except SummarizeError Summary :=
  match r.passes, r.violations, r.incomplete, r.inapplicable with
  | some p, some v, some i, some na =>
    .ok (generateSummary browser
      { url := r.url, timestamp := r.timestamp,
        testEngineVersion := r.testEngineVersion,
        passes := p, violations := v, incomplete := i, inapplicable := na })
  | none, _, _, _ => .error (.InputShapeError "passes")
  | some _, none, _, _ => .error (.InputShapeError "violations")
  | some _, some _, none, _ => .error (.InputShapeError "incomplete")
  | some _, some _, some _, none => .error (.InputShapeError "inapplicable")

/-- The four recognized impact levels. -/
def recognizedImpact (o : Option String) : Bool :=
  o = some "critical" || o = some "serious" || o = some "moderate" || o = some "minor"

/-- NaN-propagating addition on JavaScript numbers. -/
def jadd : Option Nat → Option Nat → Option Nat
  | some a, some b => some (a + b)
  | _, _ => none

/-- Sum of the four recognized buckets of a `violationsByImpact` object. -/
def sumFour (m : ImpactMap) : Option Nat :=
  jadd (jadd (jadd (getImpact m "critical") (getImpact m "serious"))
    (getImpact m "moderate")) (getImpact m "minor")

theorem getImpact_incImpact (m : ImpactMap) (k k' : String) :
    getImpact (incImpact m k') k =
      if k = k' then (getImpact m k).map (· + 1) else getImpact m k := by
  induction m with
  | nil =>
    by_cases h : k = k'
    · subst h; simp [incImpact, getImpact]
    · have h' : ¬ k' = k := fun hh => h hh.symm
      simp [incImpact, getImpact, h, h']
  | cons p rest ih =>
    obtain ⟨k₀, v⟩ := p
    by_cases h0 : k₀ = k'
    · subst h0
      by_cases h : k₀ = k
      · subst h
        simp [incImpact, getImpact]
      · have h' : ¬ k = k₀ := fun hh => h hh.symm
        simp [incImpact, getImpact, h, h']
    · by_cases h : k₀ = k
      · subst h
        have h' : ¬ k₀ = k' := h0
        simp [incImpact, getImpact, h']
      · simp [incImpact, getImpact, h0, h, ih]

/-- Count of violations carrying exactly impact `k`. -/
def impactCount (vs : List RuleOutcome) (k : String) : Nat :=
  vs.countP (fun v => v.impact = some k)

theorem getImpact_applyViolations (vs : List RuleOutcome) (m : ImpactMap)
    (k : String) (hk : k ≠ "") :
    getImpact (applyViolations m vs) k =
      (getImpact m k).map (· + impactCount vs k) := by
  induction vs generalizing m with
  | nil =>
    simp [applyViolations, impactCount]
  | cons v vs ih =>
    have step : applyViolations m (v :: vs) =
        applyViolations
          (if impactTruthy v.impact then incImpact m (v.impact.getD "") else m) vs := rfl
    rw [step, ih]
    cases hv : v.impact with
    | none =>
      simp [impactTruthy, impactCount, List.countP_cons, hv]
    | some s =>
      by_cases hs : s = ""
      · subst hs
        have hne : ¬ ("" : String) = k := fun hh => hk hh.symm
        simp [impactTruthy, impactCount, List.countP_cons, hv, hne]
      · simp only [show impactTruthy (some s) = true from by simp [impactTruthy, hs],
          if_true, Option.getD_some, getImpact_incImpact]
        by_cases he : k = s
        · subst he
          simp [impactCount, List.countP_cons, hv]
          cases getImpact m k with
          | none => rfl
          | some n => simp; omega
        · have hne : ¬ s = k := fun hh => he hh.symm
          simp [he, impactCount, List.countP_cons, hv, hne]

theorem recognized_split (o : Option String) :
    (if o = some "critical" then 1 else 0) + (if o = some "serious" then 1 else 0)
      + (if o = some "moderate" then 1 else 0) + (if o = some "minor" then 1 else 0)
      = if recognizedImpact o then 1 else 0 := by
  rcases o with _ | s
  · simp [recognizedImpact]
  · simp only [recognizedImpact, Option.some.injEq]
    by_cases h1 : s = "critical" <;> by_cases h2 : s = "serious" <;>
      by_cases h3 : s = "moderate" <;> by_cases h4 : s = "minor" <;>
      simp_all

theorem sum_impactCount (vs : List RuleOutcome) :
    impactCount vs "critical" + impactCount vs "serious" + impactCount vs "moderate"
      + impactCount vs "minor" = vs.countP (fun v => recognizedImpact v.impact) := by
  induction vs with
  | nil => rfl
  | cons v vs ih =>
    have hsplit := recognized_split v.impact
    simp only [impactCount, List.countP_cons, decide_eq_true_eq] at ih hsplit ⊢
    omega

theorem buckets_generateSummary (b : String) (r : ScanResult) (k : String)
    (hk : k ∈ ["critical", "serious", "moderate", "minor"]) :
    getImpact (generateSummary b r).violationsByImpact k
      = some (impactCount r.violations k) := by
  simp only [List.mem_cons, List.not_mem_nil, or_false] at hk
  rcases hk with rfl | rfl | rfl | rfl <;>
    · show getImpact (applyViolations initImpactMap r.violations) _ = _
      rw [getImpact_applyViolations _ _ _ (by decide)]
      simp [initImpactMap, getImpact]

theorem sumFour_generateSummary (b : String) (r : ScanResult) :
    sumFour (generateSummary b r).violationsByImpact
      = some (r.violations.countP (fun v => recognizedImpact v.impact)) := by
  rw [sumFour,
    buckets_generateSummary b r "critical" (by decide),
    buckets_generateSummary b r "serious" (by decide),
    buckets_generateSummary b r "moderate" (by decide),
    buckets_generateSummary b r "minor" (by decide)]
  simp [jadd, sum_impactCount]

/-- Claim C1: for every scan result, the sum of the four recognized
buckets of `violationsByImpact` is at most the number of violations,
with equality iff every violation's impact is one of the four recognized
levels; each bucket counts exactly the violations carrying that impact,
so a violation with an unrecognized or missing impact is counted in
`totalElements` and in the `violations` count but in none of the four
buckets. -/
theorem C1_impact_bucket_sum (b : String) (r : ScanResult) :
    (getImpact (generateSummary b r).violationsByImpact "critical"
        = some (impactCount r.violations "critical"))
    ∧ (getImpact (generateSummary b r).violationsByImpact "serious"
        = some (impactCount r.violations "serious"))
    ∧ (getImpact (generateSummary b r).violationsByImpact "moderate"
        = some (impactCount r.violations "moderate"))
    ∧ (getImpact (generateSummary b r).violationsByImpact "minor"
        = some (impactCount r.violations "minor"))
    ∧ sumFour (generateSummary b r).violationsByImpact
        = some (r.violations.countP (fun v => recognizedImpact v.impact))
    ∧ r.violations.countP (fun v => recognizedImpact v.impact) ≤ r.violations.length
    ∧ (sumFour (generateSummary b r).violationsByImpact = some r.violations.length
        ↔ ∀ v ∈ r.violations, recognizedImpact v.impact)
    ∧ (generateSummary b r).violations = r.violations.length
    ∧ (generateSummary b r).totalElements
        = r.passes.length + r.violations.length + r.incomplete.length
          + r.inapplicable.length := by
  refine ⟨buckets_generateSummary b r _ (by decide),
    buckets_generateSummary b r _ (by decide),
    buckets_generateSummary b r _ (by decide),
    buckets_generateSummary b r _ (by decide),
    sumFour_generateSummary b r, List.countP_le_length _, ?_, rfl, rfl⟩
  rw [sumFour_generateSummary b r]
  rw [Option.some_inj]
  exact List.countP_eq_length

/-- A generic affected node used to build concrete scan results. -/
def sampleNode : AffectedNode := { target := ["#main", "a"], html := none }

/-- A generic rule outcome used to build concrete scan results. -/
def sampleOutcome (impact : Option String) (nodes : List AffectedNode) : RuleOutcome :=
  { id := "rule-id", description := "desc", help := "help", helpUrl := "https://h",
    impact := impact, tags := ["wcag2a"], nodes := nodes }

/-- The concrete scan result of the spec's scenario: 10 passes, one
serious violation with 4 affected nodes, no incomplete entries, 2
inapplicable entries. -/
def exampleScan : ScanResult :=
  { url := "https://example.com", timestamp := "2024-01-15T10:30:00.000Z",
    testEngineVersion := "4.8.0",
    passes := List.replicate 10 (sampleOutcome none []),
    violations := [sampleOutcome (some "serious") (List.replicate 4 sampleNode)],
    incomplete := [],
    inapplicable := List.replicate 2 (sampleOutcome none []) }

/-- Claim C2: `totalElements` is the sum of the four category sequence
lengths and each per-category count is the corresponding length; on the
spec's concrete scenario the summary is 13 / 10 / 1 / 0 / 2. -/
theorem C2_totalElements (b : String) (r : ScanResult) :
    ((generateSummary b r).totalElements
        = r.passes.length + r.violations.length + r.incomplete.length
          + r.inapplicable.length
      ∧ (generateSummary b r).passes = r.passes.length
      ∧ (generateSummary b r).violations = r.violations.length
      ∧ (generateSummary b r).incomplete = r.incomplete.length
      ∧ (generateSummary b r).inapplicable = r.inapplicable.length)
    ∧ ((generateSummary "chromium" exampleScan).totalElements = 13
      ∧ (generateSummary "chromium" exampleScan).passes = 10
      ∧ (generateSummary "chromium" exampleScan).violations = 1
      ∧ (generateSummary "chromium" exampleScan).incomplete = 0
      ∧ (generateSummary "chromium" exampleScan).inapplicable = 2
      ∧ (generateSummary "chromium" exampleScan).violationsByImpact
          = [("critical", some 0), ("serious", some 1),
             ("moderate", some 0), ("minor", some 0)]) :=
  ⟨⟨rfl, rfl, rfl, rfl, rfl⟩, by decide⟩

/-- Claim C3: summarization aborts with the input-shape error exactly
when at least one of the four category sequences is absent; when all
four keys are present — even as empty sequences — it succeeds, so an
absent key is rejected rather than treated as an empty sequence. -/
theorem C3_input_shape (b : String) (r : RawScanResult) :
    ((∃ f, generateSummaryRaw b r = .error (.InputShapeError f)) ↔
      (r.passes = none ∨ r.violations = none ∨ r.incomplete = none
        ∨ r.inapplicable = none))
    ∧ (∃ s, generateSummaryRaw b
        { r with
          passes := some []
          violations := some []
          incomplete := some []
          inapplicable := some [] } = .ok s) := by
  constructor
  · rcases hp : r.passes with _ | p <;> rcases hv : r.violations with _ | v <;>
      rcases hi : r.incomplete with _ | i <;> rcases hn : r.inapplicable with _ | n <;>
      simp [generateSummaryRaw, hp, hv, hi, hn]
  · exact ⟨_, rfl⟩

/-! Multi-engine orchestration (`runMultipleBrowsers`).  The audit of a
single engine (`runWithAxePlaywright` with all its external collaborators)
is abstracted as an oracle `audit : String → Except String ScanResult`
from the engine name to either a scan result or the raised error; the
mutable instance fields the loop reassigns (`this.browser`,
`this.timestamp`, `this.reportDir`) are threaded explicitly. -/

/-- The immutable configuration of an `AccessibilityTester` (fields the
multi-engine loop never writes). -/
structure TesterConfig where
  url : String
  outputDir : String
  viewportWidth : Nat
  viewportHeight : Nat
  headed : Bool
deriving DecidableEq, Repr

/-- The mutable instance fields that `runMultipleBrowsers` reassigns
between successive engine runs. -/
structure TesterState where
  browser : String
  timestamp : String
  reportDir : String
deriving DecidableEq, Repr

/-- Entry recorded in the `results` mapping for one engine. -/
inductive EngineOutcome where
  | success (summary : Summary) (reportDir : String)
  | failure (error : String)
deriving DecidableEq, Repr

/-- Whether an outcome is a success entry (`result.success === true`). -/
def EngineOutcome.isSuccess : EngineOutcome → Bool
  | .success _ _ => true
  | .failure _ => false

/-- One iteration of the `for (const browser of browsers)` loop:
reassign `this.browser` and `this.timestamp`, run `init` (which writes
`this.reportDir`), run the audit, and record either a success entry
(summary plus report directory) or, in the catch clause, a failure entry
with the error message.  `freshStamp` is the wall-clock stamp taken by
`new Date()` at the top of the iteration. -/
def runOneEngine (audit : String → Except String ScanResult)
    (cfg : TesterConfig) (engine : String) (freshStamp : String)
    (st : TesterState) : TesterState × EngineOutcome :=
  let st1 : TesterState :=
    { st with browser := engine, timestamp := engine ++ "-" ++ freshStamp }
  let st2 : TesterState :=
    { st1 with reportDir := cfg.outputDir ++ "/" ++ st1.timestamp }
  match audit engine with
  | .error e => (st2, .failure e)
  | .ok results =>
    (st2, .success (generateSummary st2.browser results) st2.reportDir)

/-- Embedding of `runMultipleBrowsers`: iterate the engines in order,
threading the mutable instance state, and collect the `results` mapping
as an insertion-ordered association list.  Each engine name is paired
with the wall-clock stamp its iteration reads. -/
def runMultipleBrowsers (audit : String → Except String ScanResult)
    (cfg : TesterConfig) :
    List (String × String) → TesterState → TesterState × List (String × EngineOutcome)
  | [], st => (st, [])
  | (engine, stamp) :: rest, st =>
    let out := runOneEngine audit cfg engine stamp st
    let tail := runMultipleBrowsers audit cfg rest out.1
    (tail.1, (engine, out.2) :: tail.2)

/-- The entry `runMultipleBrowsers` records for one engine, written as a
function of that engine's own audit alone. -/
def engineEntry (audit : String → Except String ScanResult)
    (cfg : TesterConfig) (engine : String) (freshStamp : String) : EngineOutcome :=
  match audit engine with
  | .error e => .failure e
  | .ok results =>
    .success (generateSummary engine results)
      (cfg.outputDir ++ "/" ++ (engine ++ "-" ++ freshStamp))

theorem runOneEngine_entry (audit : String → Except String ScanResult)
    (cfg : TesterConfig) (engine stamp : String) (st : TesterState) :
    runOneEngine audit cfg engine stamp st =
      ({ browser := engine, timestamp := engine ++ "-" ++ stamp,
         reportDir := cfg.outputDir ++ "/" ++ (engine ++ "-" ++ stamp) },
       engineEntry audit cfg engine stamp) := by
  unfold runOneEngine engineEntry
  cases audit engine <;> rfl

theorem runMultipleBrowsers_map (audit : String → Except String ScanResult)
    (cfg : TesterConfig) (engines : List (String × String)) (st : TesterState) :
    (runMultipleBrowsers audit cfg engines st).2 =
      engines.map (fun p => (p.1, engineEntry audit cfg p.1 p.2)) := by
  induction engines generalizing st with
  | nil => rfl
  | cons p rest ih =>
    obtain ⟨engine, stamp⟩ := p
    simp [runMultipleBrowsers, runOneEngine_entry, ih]

/-- The concrete audit oracle of the spec's multi-engine scenario:
`firefox` raises a navigation error, the other engines succeed. -/
def scenarioAudit : String → Except String ScanResult := fun engine =>
  if engine = "firefox" then .error "NavigationError: timeout" else .ok exampleScan

/-- A concrete configuration for the multi-engine scenario. -/
def scenarioCfg : TesterConfig :=
  { url := "https://example.com", outputDir := "./accessibility-reports",
    viewportWidth := 1920, viewportHeight := 1080, headed := false }

/-- The instance state as the multi-engine loop starts. -/
def scenarioState : TesterState :=
  { browser := "chromium", timestamp := "T0", reportDir := "" }

/-- The three engine/stamp pairs of the multi-engine scenario. -/
def scenarioEngines : List (String × String) :=
  [("chromium", "T1"), ("firefox", "T2"), ("webkit", "T3")]

/-- Claim C6: a failure in one engine run does not abort the others; the
`results` mapping is a pointwise function of each engine's own audit
(so a failing run cannot mutate the other entries), and in the concrete
3-engine scenario where exactly one engine raises a navigation error the
mapping holds exactly 2 success entries and 1 failure entry, each
success entry being exactly the summary of its own engine's audit. -/
theorem C6_failure_isolation (audit : String → Except String ScanResult)
    (cfg : TesterConfig) (engines : List (String × String)) (st : TesterState) :
    ((runMultipleBrowsers audit cfg engines st).2 =
      engines.map (fun p => (p.1, engineEntry audit cfg p.1 p.2)))
    ∧ (((runMultipleBrowsers scenarioAudit scenarioCfg scenarioEngines
          scenarioState).2.countP (fun p => p.2.isSuccess) = 2)
      ∧ ((runMultipleBrowsers scenarioAudit scenarioCfg scenarioEngines
          scenarioState).2.countP (fun p => !p.2.isSuccess) = 1)
      ∧ (runMultipleBrowsers scenarioAudit scenarioCfg scenarioEngines
          scenarioState).2 =
          [("chromium", .success (generateSummary "chromium" exampleScan)
              "./accessibility-reports/chromium-T1"),
           ("firefox", .failure "NavigationError: timeout"),
           ("webkit", .success (generateSummary "webkit" exampleScan)
              "./accessibility-reports/webkit-T3")]) :=
  ⟨runMultipleBrowsers_map audit cfg engines st, by decide, by decide, by decide⟩

/-- Claim C7 counterexample: the second engine run writes the very
instance fields (`this.browser`, `this.timestamp`, `this.reportDir`) the
first run wrote, so the runs do share mutable orchestrator state: after
the first iteration the shared state holds the first engine's values and
after the second iteration it holds the second engine's values. -/
theorem C7_counterexample :
    ((runOneEngine scenarioAudit scenarioCfg "chromium" "T1" scenarioState).1.browser
        = "chromium"
      ∧ (runOneEngine scenarioAudit scenarioCfg "chromium" "T1"
          scenarioState).1.timestamp = "chromium-T1")
    ∧ ((runOneEngine scenarioAudit scenarioCfg "firefox" "T2"
          (runOneEngine scenarioAudit scenarioCfg "chromium" "T1"
            scenarioState).1).1.browser = "firefox"
      ∧ (runOneEngine scenarioAudit scenarioCfg "firefox" "T2"
          (runOneEngine scenarioAudit scenarioCfg "chromium" "T1"
            scenarioState).1).1.timestamp = "firefox-T2")
    ∧ ("firefox" : String) ≠ "chromium" := by
  decide

/-- Claim C7 (amended): the runs share the orchestrator's mutable fields,
but every such field is overwritten before it is read, so each run's
outcome, its final state and the whole `results` mapping are independent
of the mutable state left behind by prior runs. -/
theorem C7_runs_functionally_independent
    (audit : String → Except String ScanResult) (cfg : TesterConfig)
    (engine stamp : String) (engines : List (String × String))
    (st st' : TesterState) :
    ((runOneEngine audit cfg engine stamp st).2
        = (runOneEngine audit cfg engine stamp st').2)
    ∧ ((runOneEngine audit cfg engine stamp st).1
        = (runOneEngine audit cfg engine stamp st').1)
    ∧ ((runMultipleBrowsers audit cfg engines st).2
        = (runMultipleBrowsers audit cfg engines st').2) := by
  refine ⟨?_, ?_, ?_⟩
  · rw [runOneEngine_entry, runOneEngine_entry]
  · rw [runOneEngine_entry, runOneEngine_entry]
  · rw [runMultipleBrowsers_map, runMultipleBrowsers_map]

/-! Resource lifecycle of a single audit run.  The external steps of
`runAudit` / `runWithAxePlaywright` (axe-playwright) and
`runAccessibilityTest` (axe-webdriverio) are abstracted by a failure
oracle; the browser session acquisition and its close/deleteSession are
recorded as events. -/

/-- Browser-session events a run emits. -/
inductive ResourceEvent where
  | acquire
  | release
deriving DecidableEq, Repr

/-- Failure injection for the external steps of an audit run; `true`
means the awaited call succeeds, `false` that it raises.  Closing a
session (`browser.close()` / `browser.deleteSession()`) is treated as a
reliable collaborator. -/
structure StepOracle where
  launchOk : Bool
  contextOk : Bool
  pageOk : Bool
  gotoOk : Bool
  screenshotOk : Bool
  injectOk : Bool
  violationsOk : Bool
  evalOk : Bool
deriving DecidableEq, Repr

/-- The awaited steps in the try block of `runAudit` after the launch, in
program order: `newContext`, `newPage`, `goto`, `screenshot`, the
axe-core injection and the in-page evaluation. -/
def runAuditSteps (o : StepOracle) : List Bool :=
  [o.contextOk, o.pageOk, o.gotoOk, o.screenshotOk, o.injectOk, o.evalOk]

/-- The awaited steps in the try block of `runWithAxePlaywright` after
the launch: `newContext`, `newPage`, `goto`, `screenshot`, `injectAxe`,
`getViolations` and the full in-page evaluation. -/
def runWithAxeSteps (o : StepOracle) : List Bool :=
  [o.contextOk, o.pageOk, o.gotoOk, o.screenshotOk, o.injectOk,
    o.violationsOk, o.evalOk]

/-- The awaited steps in the try block of the webdriverio
`runAccessibilityTest` after the `remote(...)` call: navigation and the
axe analysis (report writing is outside the session lifecycle). -/
def wdSteps (o : StepOracle) : List Bool :=
  [o.gotoOk, o.evalOk]

/-- The catch clause of `runAudit` / `runWithAxePlaywright`:
`if (browser) await browser.close(); throw error`.  `browserBound` says
whether `browser = await this.launchBrowser()` completed. -/
def catchClause (browserBound : Bool) : List ResourceEvent :=
  if browserBound then [ResourceEvent.release] else []

/-- The finally clause of the webdriverio run:
`if (browser) await browser.deleteSession()`. -/
def finallyClause (browserBound : Bool) : List ResourceEvent :=
  if browserBound then [ResourceEvent.release] else []

/-- Session-event trace and success flag of a try/catch run
(`runAudit` and `runWithAxePlaywright` share this shape): if the launch
throws, the catch clause finds `browser` unbound; otherwise the session
is acquired, a failing step transfers control to the catch clause, and
on full success the try block itself closes the session before
returning. -/
def tryCatchRunTrace (launchOk : Bool) (steps : List Bool) :
    List ResourceEvent × Bool :=
  if launchOk then
    if steps.all id then ([ResourceEvent.acquire, ResourceEvent.release], true)
    else ([ResourceEvent.acquire] ++ catchClause true, false)
  else ([] ++ catchClause false, false)

/-- Trace of `runAudit` under a failure oracle. -/
def runAuditTrace (o : StepOracle) : List ResourceEvent × Bool :=
  tryCatchRunTrace o.launchOk (runAuditSteps o)

/-- Trace of `runWithAxePlaywright` under a failure oracle. -/
def runWithAxeTrace (o : StepOracle) : List ResourceEvent × Bool :=
  tryCatchRunTrace o.launchOk (runWithAxeSteps o)

/-- Trace of the webdriverio `runAccessibilityTest` under a failure
oracle: a try/finally, so the session (when bound) is released whether
or not the body raised. -/
def wdRunTrace (o : StepOracle) : List ResourceEvent × Bool :=
  if o.launchOk then
    ([ResourceEvent.acquire] ++ finallyClause true, (wdSteps o).all id)
  else ([] ++ finallyClause false, false)

/-- Claim C8: each audit run acquires the browser session at most once —
exactly once as soon as the launch call itself succeeds — and on every
exit path, normal or raising, the number of releases equals the number
of acquisitions, so no run terminates with the session still open.
This holds for `runAudit`, `runWithAxePlaywright` and the webdriverio
`runAccessibilityTest`. -/
theorem C8_session_released (o : StepOracle) :
    ((runAuditTrace o).1.count ResourceEvent.acquire
        = (if o.launchOk then 1 else 0)
      ∧ (runAuditTrace o).1.count ResourceEvent.release
        = (runAuditTrace o).1.count ResourceEvent.acquire)
    ∧ ((runWithAxeTrace o).1.count ResourceEvent.acquire
        = (if o.launchOk then 1 else 0)
      ∧ (runWithAxeTrace o).1.count ResourceEvent.release
        = (runWithAxeTrace o).1.count ResourceEvent.acquire)
    ∧ ((wdRunTrace o).1.count ResourceEvent.acquire
        = (if o.launchOk then 1 else 0)
      ∧ (wdRunTrace o).1.count ResourceEvent.release
        = (wdRunTrace o).1.count ResourceEvent.acquire) := by
  obtain ⟨l, c, p, g, s, i, v, e⟩ := o
  cases l <;> cases c <;> cases p <;> cases g <;> cases s <;> cases i <;>
    cases v <;> cases e <;> decide

/-- Claim C10: the summary additionally carries the scanned url, the scan
timestamp and the configured browser name. -/
theorem C10_summary_metadata (b : String) (r : ScanResult) :
    (generateSummary b r).url = r.url
      ∧ (generateSummary b r).timestamp = r.timestamp
      ∧ (generateSummary b r).browser = b :=
  ⟨rfl, rfl, rfl⟩

/-! HTML report renderers.  The template literals of the two
`generateHTMLReport` functions are embedded segment by segment: `...SegN`
definitions hold the literal text between consecutive interpolation
points, in source order, and the renderer definitions concatenate them
with the interpolated values.  The wall-clock reading available to a
render call (`new Date()` with no argument) is passed in as the `now`
argument; the playwright renderer never consults it, the webdriverio
renderer embeds it in the document title. -/

def pwSeg0 : String :=
  "<!DOCTYPE html>\n<html lang=\"en\">\n<head>\n    <meta charset=\"UTF-8\">\n    <meta name=\"viewport\" content=\"width=device-width, initial-scale=1.0\">\n    <title>Accessibility Report - "

def pwSeg1 : String :=
  "</title>\n    <style>\n        * \x7b margin: 0; padding: 0; box-sizing: border-box; \x7d\n        body \x7b\n            font-family: -apple-system, BlinkMacSystemFont, \x27Segoe UI\x27, Roboto, Oxygen, Ubuntu, sans-serif;\n            line-height: 1.6;\n            color: #333;\n            background: #f5f5f5;\n        \x7d\n        .container \x7b\n            max-width: 1200px;\n            margin: 0 auto;\n            padding: 20px;\n        \x7d\n        header \x7b\n            background: linear-gradient(135deg, #667eea 0%, #764ba2 100%);\n            color: white;\n            padding: 30px 0;\n            margin-bottom: 30px;\n            border-radius: 10px;\n        \x7d\n        h1 \x7b\n            text-align: center;\n            font-size: 2.5em;\n            margin-bottom: 10px;\n        \x7d\n        .header-info \x7b\n            text-align: center;\n            opacity: 0.9;\n        \x7d\n        .browser-info \x7b\n            text-align: center;\n            margin-top: 10px;\n            font-size: 1.1em;\n        \x7d\n        .summary \x7b\n            display: grid;\n            grid-template-columns: repeat(auto-fit, minmax(200px, 1fr));\n            gap: 20px;\n            margin-bottom: 40px;\n        \x7d\n        .stat-card \x7b\n            background: white;\n            padding: 20px;\n            border-radius: 10px;\n            box-shadow: 0 2px 10px rgba(0,0,0,0.1);\n            text-align: center;\n            transition: transform 0.3s;\n        \x7d\n        .stat-card:hover \x7b\n            transform: translateY(-5px);\n        \x7d\n        .stat-number \x7b\n            font-size: 2.5em;\n            font-weight: bold;\n            margin-bottom: 10px;\n        \x7d\n        .stat-label \x7b\n            color: #666;\n            font-size: 0.9em;\n            text-transform: uppercase;\n            letter-spacing: 1px;\n        \x7d\n        .passes \x7b color: #10b981; \x7d\n        .violations \x7b color: #ef4444; \x7d\n        .incomplete \x7b color: #f59e0b; \x7d\n        .inapplicable \x7b color: #6b7280; \x7d\n        .impact-summary \x7b\n            background: white;\n            padding: 30px;\n            border-radius: 10px;\n            margin-bottom: 40px;\n            box-shadow: 0 2px 10px rgba(0,0,0,0.1);\n        \x7d\n        .impact-grid \x7b\n            display: grid;\n            grid-template-columns: repeat(auto-fit, minmax(150px, 1fr));\n            gap: 15px;\n            margin-top: 20px;\n        \x7d\n        .impact-item \x7b\n            padding: 15px;\n            border-radius: 8px;\n            text-align: center;\n            font-weight: bold;\n        \x7d\n        .critical \x7b background: #fee2e2; color: #991b1b; \x7d\n        .serious \x7b background: #fed7aa; color: #c2410c; \x7d\n        .moderate \x7b background: #fef3c7; color: #d97706; \x7d\n        .minor \x7b background: #dbeafe; color: #1e40af; \x7d\n        .violations-section \x7b\n            background: white;\n            padding: 30px;\n            border-radius: 10px;\n            box-shadow: 0 2px 10px rgba(0,0,0,0.1);\n        \x7d\n        .violation \x7b\n            border-left: 4px solid #ef4444;\n            padding: 20px;\n            margin: 20px 0;\n            background: #fef2f2;\n            border-radius: 0 8px 8px 0;\n        \x7d\n        .violation-header \x7b\n            display: flex;\n            justify-content: space-between;\n            align-items: center;\n            margin-bottom: 15px;\n        \x7d\n        .violation-title \x7b\n            font-size: 1.2em;\n            font-weight: bold;\n            color: #1f2937;\n        \x7d\n        .violation-impact \x7b\n            padding: 5px 12px;\n            border-radius: 20px;\n            font-size: 0.85em;\n            font-weight: bold;\n            text-transform: uppercase;\n        \x7d\n        .violation-description \x7b\n            color: #4b5563;\n            margin-bottom: 15px;\n            line-height: 1.6;\n        \x7d\n        .violation-details \x7b\n            margin-top: 15px;\n            padding-top: 15px;\n            border-top: 1px solid #e5e7eb;\n        \x7d\n        .affected-elements \x7b\n            background: white;\n            padding: 10px;\n            border-radius: 5px;\n            margin-top: 10px;\n            font-family: \x27Courier New\x27, monospace;\n            font-size: 0.9em;\n            overflow-x: auto;\n        \x7d\n        .help-link \x7b\n            display: inline-block;\n            margin-top: 10px;\n            color: #3b82f6;\n            text-decoration: none;\n            font-weight: 500;\n        \x7d\n        .help-link:hover \x7b\n            text-decoration: underline;\n        \x7d\n        .screenshot-section \x7b\n            margin-top: 40px;\n            background: white;\n            padding: 30px;\n            border-radius: 10px;\n            box-shadow: 0 2px 10px rgba(0,0,0,0.1);\n        \x7d\n        .screenshot-img \x7b\n            width: 100%;\n            border-radius: 8px;\n            border: 1px solid #e5e7eb;\n        \x7d\n        footer \x7b\n            text-align: center;\n            margin-top: 40px;\n            padding: 20px;\n            color: #6b7280;\n        \x7d\n        .test-info \x7b\n            background: #f3f4f6;\n            padding: 15px;\n            border-radius: 8px;\n            margin-top: 20px;\n        \x7d\n        .test-info-item \x7b\n            display: flex;\n            justify-content: space-between;\n            margin: 5px 0;\n        \x7d\n        .test-info-label \x7b\n            font-weight: bold;\n            color: #4b5563;\n        \x7d\n    </style>\n</head>\n<body>\n    <div class=\"container\">\n        <header>\n            <h1>Accessibility Report</h1>\n            <div class=\"header-info\">\n                <p>"

def pwSeg2 : String :=
  "</p>\n                <p>"

def pwSeg3 : String :=
  "</p>\n                <div class=\"browser-info\">\n                    🖥️ Browser: "

def pwSeg4 : String :=
  "\n                </div>\n            </div>\n        </header>\n\n        <div class=\"summary\">\n            <div class=\"stat-card\">\n                <div class=\"stat-number passes\">"

def pwSeg5 : String :=
  "</div>\n                <div class=\"stat-label\">Passed</div>\n            </div>\n            <div class=\"stat-card\">\n                <div class=\"stat-number violations\">"

def pwSeg6 : String :=
  "</div>\n                <div class=\"stat-label\">Violations</div>\n            </div>\n            <div class=\"stat-card\">\n                <div class=\"stat-number incomplete\">"

def pwSeg7 : String :=
  "</div>\n                <div class=\"stat-label\">Incomplete</div>\n            </div>\n            <div class=\"stat-card\">\n                <div class=\"stat-number inapplicable\">"

def pwSeg8 : String :=
  "</div>\n                <div class=\"stat-label\">Not Applicable</div>\n            </div>\n        </div>\n\n        "

def pwSeg9 : String :=
  "\n\n        <div class=\"test-info\">\n            <h3>Test Configuration</h3>\n            <div class=\"test-info-item\">\n                <span class=\"test-info-label\">Test Engine:</span>\n                <span>axe-core "

def pwSeg10 : String :=
  "</span>\n            </div>\n            <div class=\"test-info-item\">\n                <span class=\"test-info-label\">Test Framework:</span>\n                <span>Playwright with axe-playwright</span>\n            </div>\n            <div class=\"test-info-item\">\n                <span class=\"test-info-label\">Browser:</span>\n                <span>"

def pwSeg11 : String :=
  "</span>\n            </div>\n            <div class=\"test-info-item\">\n                <span class=\"test-info-label\">Viewport:</span>\n                <span>"

def pwSeg12 : String :=
  " x "

def pwSeg13 : String :=
  "</span>\n            </div>\n            <div class=\"test-info-item\">\n                <span class=\"test-info-label\">Rules Applied:</span>\n                <span>"

def pwSeg14 : String :=
  "</span>\n            </div>\n        </div>\n\n        <div class=\"screenshot-section\">\n            <h2>Page Screenshot</h2>\n            <img src=\"screenshot.png\" alt=\"Screenshot of tested page\" class=\"screenshot-img\">\n        </div>\n\n        <footer>\n            <p>Generated with axe-core "

def pwSeg15 : String :=
  " and Playwright</p>\n        </footer>\n    </div>\n</body>\n</html>"

def pwImpactSeg0 : String :=
  "\n        <div class=\"impact-summary\">\n            <h2>Violations by Impact Level</h2>\n            <div class=\"impact-grid\">\n                <div class=\"impact-item critical\">\n                    Critical: "

def pwImpactSeg1 : String :=
  "\n                </div>\n                <div class=\"impact-item serious\">\n                    Serious: "

def pwImpactSeg2 : String :=
  "\n                </div>\n                <div class=\"impact-item moderate\">\n                    Moderate: "

def pwImpactSeg3 : String :=
  "\n                </div>\n                <div class=\"impact-item minor\">\n                    Minor: "

def pwImpactSeg4 : String :=
  "\n                </div>\n            </div>\n        </div>\n\n        <div class=\"violations-section\">\n            <h2>Violation Details</h2>\n            "

def pwImpactSeg5 : String :=
  "\n        </div>\n        "

def pwViolSeg0 : String :=
  "\n                <div class=\"violation\">\n                    <div class=\"violation-header\">\n                        <div class=\"violation-title\">"

def pwViolSeg1 : String :=
  "</div>\n                        <span class=\"violation-impact "

def pwViolSeg2 : String :=
  "\">"

def pwViolSeg3 : String :=
  "</span>\n                    </div>\n                    <div class=\"violation-description\">\n                        "

def pwViolSeg4 : String :=
  "\n                    </div>\n                    <div class=\"violation-details\">\n                        <strong>Rule ID:</strong> "

def pwViolSeg5 : String :=
  "<br>\n                        <strong>WCAG:</strong> "

def pwViolSeg6 : String :=
  "<br>\n                        <strong>Elements Affected:</strong> "

def pwViolSeg7 : String :=
  "\n                        "

def pwViolSeg8 : String :=
  "\n                        <a href=\""

def pwViolSeg9 : String :=
  "\" target=\"_blank\" class=\"help-link\">\n                            Learn more about this issue →\n                        </a>\n                    </div>\n                </div>\n            "

def pwAffSeg0 : String :=
  "\n                            <div class=\"affected-elements\">\n                                "

def pwAffSeg1 : String :=
  "\n                                "

def pwAffSeg2 : String :=
  "\n                            </div>\n                        "

def pwMoreSeg0 : String :=
  "<br>... and "

def pwMoreSeg1 : String :=
  " more"

def pwNoViolSeg0 : String :=
  "\n        <div class=\"impact-summary\">\n            <h2 style=\"color: #10b981; text-align: center;\">✅ No accessibility violations found!</h2>\n        </div>\n        "

def wdSeg0 : String :=
  "<!DOCTYPE html>\n<html lang=\"en\">\n<head>\n    <meta charset=\"UTF-8\">\n    <meta name=\"viewport\" content=\"width=device-width, initial-scale=1.0\">\n    <title>Accessibility Report - "

def wdSeg1 : String :=
  "</title>\n    <style>\n        body \x7b\n            font-family: -apple-system, BlinkMacSystemFont, \x27Segoe UI\x27, Roboto, sans-serif;\n            line-height: 1.6;\n            color: #333;\n            max-width: 1200px;\n            margin: 0 auto;\n            padding: 20px;\n            background: #f5f5f5;\n        \x7d\n        .header \x7b\n            background: white;\n            padding: 20px;\n            border-radius: 8px;\n            box-shadow: 0 2px 4px rgba(0,0,0,0.1);\n            margin-bottom: 20px;\n        \x7d\n        h1 \x7b\n            color: #2c3e50;\n            margin: 0 0 10px 0;\n        \x7d\n        .summary \x7b\n            display: grid;\n            grid-template-columns: repeat(auto-fit, minmax(200px, 1fr));\n            gap: 15px;\n            margin: 20px 0;\n        \x7d\n        .summary-card \x7b\n            background: white;\n            padding: 15px;\n            border-radius: 8px;\n            box-shadow: 0 2px 4px rgba(0,0,0,0.1);\n        \x7d\n        .summary-card h3 \x7b\n            margin: 0 0 5px 0;\n            font-size: 14px;\n            color: #666;\n        \x7d\n        .summary-card .count \x7b\n            font-size: 28px;\n            font-weight: bold;\n        \x7d\n        .violations \x7b color: #e74c3c; \x7d\n        .passes \x7b color: #27ae60; \x7d\n        .incomplete \x7b color: #f39c12; \x7d\n        .inapplicable \x7b color: #95a5a6; \x7d\n        table \x7b\n            width: 100%;\n            background: white;\n            border-radius: 8px;\n            box-shadow: 0 2px 4px rgba(0,0,0,0.1);\n            overflow: hidden;\n            margin-top: 20px;\n        \x7d\n        th \x7b\n            background: #2c3e50;\n            color: white;\n            padding: 12px;\n            text-align: left;\n        \x7d\n        td \x7b\n            padding: 12px;\n            border-bottom: 1px solid #ecf0f1;\n        \x7d\n        tr:last-child td \x7b\n            border-bottom: none;\n        \x7d\n        tr:hover \x7b\n            background: #f8f9fa;\n        \x7d\n        .impact \x7b\n            padding: 3px 8px;\n            border-radius: 4px;\n            font-size: 12px;\n            font-weight: bold;\n            text-transform: uppercase;\n        \x7d\n        .impact-critical \x7b background: #e74c3c; color: white; \x7d\n        .impact-serious \x7b background: #e67e22; color: white; \x7d\n        .impact-moderate \x7b background: #f39c12; color: white; \x7d\n        .impact-minor \x7b background: #95a5a6; color: white; \x7d\n        .metadata \x7b\n            color: #666;\n            font-size: 14px;\n        \x7d\n        a \x7b\n            color: #3498db;\n            text-decoration: none;\n        \x7d\n        a:hover \x7b\n            text-decoration: underline;\n        \x7d\n    </style>\n</head>\n<body>\n    <div class=\"header\">\n        <h1>Accessibility Test Report</h1>\n        <div class=\"metadata\">\n            <p><strong>URL:</strong> "

def wdSeg2 : String :=
  "</p>\n            <p><strong>Tested on:</strong> "

def wdSeg3 : String :=
  "</p>\n            <p><strong>Test Engine:</strong> axe-core "

def wdSeg4 : String :=
  "</p>\n        </div>\n    </div>\n\n    <div class=\"summary\">\n        <div class=\"summary-card\">\n            <h3>Violations</h3>\n            <div class=\"count violations\">"

def wdSeg5 : String :=
  "</div>\n        </div>\n        <div class=\"summary-card\">\n            <h3>Passes</h3>\n            <div class=\"count passes\">"

def wdSeg6 : String :=
  "</div>\n        </div>\n        <div class=\"summary-card\">\n            <h3>Incomplete</h3>\n            <div class=\"count incomplete\">"

def wdSeg7 : String :=
  "</div>\n        </div>\n        <div class=\"summary-card\">\n            <h3>Inapplicable</h3>\n            <div class=\"count inapplicable\">"

def wdSeg8 : String :=
  "</div>\n        </div>\n    </div>\n\n    "

def wdSeg9 : String :=
  "\n</body>\n</html>"

def wdRowSeg0 : String :=
  "\n    <tr>\n      <td>"

def wdRowSeg1 : String :=
  "</td>\n      <td>"

def wdRowSeg2 : String :=
  "</td>\n      <td><span class=\"impact impact-"

def wdRowSeg3 : String :=
  "\">"

def wdRowSeg4 : String :=
  "</span></td>\n      <td>"

def wdRowSeg5 : String :=
  "</td>\n      <td><a href=\""

def wdRowSeg6 : String :=
  "\" target=\"_blank\">Help</a></td>\n    </tr>\n  "

def wdTableSeg0 : String :=
  "\n        <h2>Violations</h2>\n        <table>\n            <thead>\n                <tr>\n                    <th>Rule ID</th>\n                    <th>Description</th>\n                    <th>Impact</th>\n                    <th>Elements</th>\n                    <th>Help</th>\n                </tr>\n            </thead>\n            <tbody>\n                "

def wdTableSeg1 : String :=
  "\n            </tbody>\n        </table>\n    "

/-- Model of the platform URL parser used by `new URL(url).hostname`: the
text after the scheme separator, up to the first path, port, query or
fragment delimiter. -/
def urlHostname (url : String) : String :=
  let rest := match url.splitOn "://" with
    | _ :: r :: _ => r
    | _ => url
  rest.takeWhile (fun c => !(c = '/' || c = ':' || c = '?' || c = '#'))

/-- Model of `new Date(iso).toLocaleString()`: locale formatting is an
external pure function of the timestamp string; it is embedded as the
identity, which preserves exactly which input the rendered text depends
on. -/
def dateToLocaleString (iso : String) : String := iso

/-- JavaScript `s.charAt(0).toUpperCase() + s.slice(1)`. -/
def capitalize (s : String) : String :=
  match s.data with
  | [] => ""
  | c :: cs => String.mk (c.toUpper :: cs)

/-- Template interpolation of a possibly-absent value: `${undefined}`
renders as the text `undefined`. -/
def showOptString : Option String → String
  | some s => s
  | none => "undefined"

/-- Template interpolation of a number-or-NaN bucket value. -/
def showJsNum : Option Nat → String
  | some n => toString n
  | none => "NaN"

/-- JavaScript `this.axeOptions.runOnly?.values?.join(", ") || "All"`:
an absent list — and an empty join, which is falsy — fall back to
`"All"`. -/
def rulesAppliedLabel (runOnlyValues : Option (List String)) : String :=
  match runOnlyValues with
  | none => "All"
  | some vals =>
    let j := String.intercalate ", " vals
    if j = "" then "All" else j

/-- The instance fields of `AccessibilityTester` that
`generateHTMLReport` reads, together with the axe-core library version
it embeds. -/
structure RenderConfig where
  url : String
  browser : String
  viewportWidth : Nat
  viewportHeight : Nat
  runOnlyValues : Option (List String)
  axeVersion : String
deriving DecidableEq, Repr

/-- The `violation.nodes.length > 3` conditional: the explicit indicator
for the affected nodes beyond the first three. -/
def pwMoreIndicator (nodes : List AffectedNode) : String :=
  if nodes.length > 3 then
    pwMoreSeg0 ++ toString (nodes.length - 3) ++ pwMoreSeg1
  else ""

/-- The `violation.nodes.length > 0` conditional of the violation block:
the affected-elements box listing `violation.nodes.slice(0, 3)` target
selectors joined by `<br>`, then the beyond-three indicator. -/
def pwAffectedBlock (nodes : List AffectedNode) : String :=
  if nodes.length > 0 then
    pwAffSeg0
      ++ String.intercalate "<br>"
        ((nodes.take 3).map (fun n => String.intercalate " " n.target))
      ++ pwAffSeg1 ++ pwMoreIndicator nodes ++ pwAffSeg2
  else ""

/-- The per-violation detail block of the playwright HTML report. -/
def pwViolationBlock (v : RuleOutcome) : String :=
  pwViolSeg0 ++ v.help ++ pwViolSeg1 ++ showOptString v.impact ++ pwViolSeg2
    ++ showOptString v.impact ++ pwViolSeg3 ++ v.description ++ pwViolSeg4
    ++ v.id ++ pwViolSeg5 ++ String.intercalate ", " v.tags ++ pwViolSeg6
    ++ toString v.nodes.length ++ pwViolSeg7 ++ pwAffectedBlock v.nodes
    ++ pwViolSeg8 ++ v.helpUrl ++ pwViolSeg9

/-- The `summary.violations > 0` conditional of the playwright report:
the impact breakdown plus the violation detail blocks, or the success
notice. -/
def pwImpactSection (summary : Summary) (results : ScanResult) : String :=
  if summary.violations > 0 then
    pwImpactSeg0 ++ showJsNum (getImpact summary.violationsByImpact "critical")
      ++ pwImpactSeg1 ++ showJsNum (getImpact summary.violationsByImpact "serious")
      ++ pwImpactSeg2 ++ showJsNum (getImpact summary.violationsByImpact "moderate")
      ++ pwImpactSeg3 ++ showJsNum (getImpact summary.violationsByImpact "minor")
      ++ pwImpactSeg4 ++ String.join (results.violations.map pwViolationBlock)
      ++ pwImpactSeg5
  else pwNoViolSeg0

/-- Embedding of `AccessibilityTester.generateHTMLReport(results)`
(playwright): the summary is computed from the results, then the
template is filled in.  `now` is the wall-clock reading available at
render time; the template never consults it — every displayed time comes
from `summary.timestamp`, i.e. from `results.timestamp`. -/
def generateHTMLReport (cfg : RenderConfig) (results : ScanResult)
    (now : String) : String :=
  let summary := generateSummary cfg.browser results
  pwSeg0 ++ urlHostname cfg.url
    ++ pwSeg1 ++ urlHostname cfg.url
    ++ pwSeg2 ++ dateToLocaleString summary.timestamp
    ++ pwSeg3 ++ capitalize cfg.browser
    ++ pwSeg4 ++ toString summary.passes
    ++ pwSeg5 ++ toString summary.violations
    ++ pwSeg6 ++ toString summary.incomplete
    ++ pwSeg7 ++ toString summary.inapplicable
    ++ pwSeg8 ++ pwImpactSection summary results
    ++ pwSeg9 ++ cfg.axeVersion
    ++ pwSeg10 ++ cfg.browser
    ++ pwSeg11 ++ toString cfg.viewportWidth
    ++ pwSeg12 ++ toString cfg.viewportHeight
    ++ pwSeg13 ++ rulesAppliedLabel cfg.runOnlyValues
    ++ pwSeg14 ++ cfg.axeVersion
    ++ pwSeg15

namespace Wd

/-- One row of the webdriverio violations table. -/
def violationRow (v : RuleOutcome) : String :=
  wdRowSeg0 ++ v.id ++ wdRowSeg1 ++ v.description ++ wdRowSeg2
    ++ showOptString v.impact ++ wdRowSeg3 ++ showOptString v.impact
    ++ wdRowSeg4 ++ toString v.nodes.length ++ wdRowSeg5 ++ v.helpUrl
    ++ wdRowSeg6

/-- The `results.violations.length > 0` conditional of the webdriverio
report: the violations table or the no-violations notice. -/
def violationsTable (results : ScanResult) : String :=
  if results.violations.length > 0 then
    wdTableSeg0 ++ String.join (results.violations.map violationRow)
      ++ wdTableSeg1
  else "<h2>✓ No Violations Found</h2>"

/-- Embedding of the webdriverio `generateHTMLReport(results)`.  `now` is
the wall-clock reading at render time: the document title interpolates
`new Date().toLocaleString()`, i.e. the render-time clock, while the
"Tested on" line uses `results.timestamp`. -/
def generateHTMLReport (results : ScanResult) (now : String) : String :=
  wdSeg0 ++ dateToLocaleString now
    ++ wdSeg1 ++ results.url
    ++ wdSeg2 ++ dateToLocaleString results.timestamp
    ++ wdSeg3 ++ results.testEngineVersion
    ++ wdSeg4 ++ toString results.violations.length
    ++ wdSeg5 ++ toString results.passes.length
    ++ wdSeg6 ++ toString results.incomplete.length
    ++ wdSeg7 ++ toString results.inapplicable.length
    ++ wdSeg8 ++ violationsTable results
    ++ wdSeg9

end Wd

/-- Five affected nodes with distinct selector targets. -/
def fiveNodes : List AffectedNode :=
  [{ target := ["#n1"], html := none }, { target := ["#n2"], html := none },
   { target := ["#n3"], html := none }, { target := ["#n4"], html := none },
   { target := ["#n5"], html := none }]

set_option maxRecDepth 100000 in
/-- Claim C9: the affected-elements block of a rendered violation shows
the target selectors of at most the first three affected nodes
(`min 3 n` selectors for `n` nodes), followed by the explicit
`... and N more` indicator exactly when the violation has more than 3
nodes, with `N` = nodes − 3; in particular a violation with 5 affected
nodes shows exactly its first 3 node targets plus the `... and 2 more`
indicator. -/
theorem C9_affected_nodes_truncation (v : RuleOutcome) :
    (((v.nodes.take 3).map (fun n => String.intercalate " " n.target)).length
        = min 3 v.nodes.length)
    ∧ (pwAffectedBlock v.nodes =
        if v.nodes.length > 0 then
          pwAffSeg0
            ++ String.intercalate "<br>"
              ((v.nodes.take 3).map (fun n => String.intercalate " " n.target))
            ++ pwAffSeg1
            ++ (if v.nodes.length > 3 then
                  "<br>... and " ++ toString (v.nodes.length - 3) ++ " more"
                else "")
            ++ pwAffSeg2
        else "")
    ∧ (∃ pre post, pwViolationBlock v = pre ++ pwAffectedBlock v.nodes ++ post)
    ∧ (pwAffectedBlock fiveNodes =
        pwAffSeg0 ++ "#n1<br>#n2<br>#n3" ++ pwAffSeg1 ++ "<br>... and 2 more"
          ++ pwAffSeg2) := by
  refine ⟨by simp, ?_, ?_, ?_⟩
  · simp only [pwAffectedBlock, pwMoreIndicator, pwMoreSeg0, pwMoreSeg1]
  · refine ⟨pwViolSeg0 ++ v.help ++ pwViolSeg1 ++ showOptString v.impact
      ++ pwViolSeg2 ++ showOptString v.impact ++ pwViolSeg3 ++ v.description
      ++ pwViolSeg4 ++ v.id ++ pwViolSeg5 ++ String.intercalate ", " v.tags
      ++ pwViolSeg6 ++ toString v.nodes.length ++ pwViolSeg7,
      pwViolSeg8 ++ v.helpUrl ++ pwViolSeg9, ?_⟩
    simp [pwViolationBlock, String.append_assoc]
  · decide

/-- The left-associated prefix of the playwright report up to the
displayed test time. -/
def pwHeaderPrefix (cfg : RenderConfig) : String :=
  pwSeg0 ++ urlHostname cfg.url ++ pwSeg1 ++ urlHostname cfg.url ++ pwSeg2

/-- Claim C5 (amended): the playwright HTML renderer is a pure function
of the result and the render configuration — renders of the identical
input at two different wall-clock instants are byte-identical — and the
time it displays is `results.timestamp`; the webdriverio renderer also
displays `results.timestamp` in its body, but its document title
interpolates the render-time clock (see the counterexample), so of the
two renderers only the playwright one is deterministic. -/
theorem C5_pw_render_deterministic (cfg : RenderConfig) (results : ScanResult)
    (t1 t2 : String) :
    (generateHTMLReport cfg results t1 = generateHTMLReport cfg results t2)
    ∧ (∃ post, generateHTMLReport cfg results t1
        = pwHeaderPrefix cfg ++ dateToLocaleString results.timestamp ++ post)
    ∧ (∀ now, ∃ pre post, Wd.generateHTMLReport results now
        = pre ++ dateToLocaleString results.timestamp ++ post) := by
  refine ⟨rfl, ?_, ?_⟩
  · refine ⟨pwSeg3 ++ capitalize cfg.browser
      ++ pwSeg4 ++ toString (generateSummary cfg.browser results).passes
      ++ pwSeg5 ++ toString (generateSummary cfg.browser results).violations
      ++ pwSeg6 ++ toString (generateSummary cfg.browser results).incomplete
      ++ pwSeg7 ++ toString (generateSummary cfg.browser results).inapplicable
      ++ pwSeg8 ++ pwImpactSection (generateSummary cfg.browser results) results
      ++ pwSeg9 ++ cfg.axeVersion
      ++ pwSeg10 ++ cfg.browser
      ++ pwSeg11 ++ toString cfg.viewportWidth
      ++ pwSeg12 ++ toString cfg.viewportHeight
      ++ pwSeg13 ++ rulesAppliedLabel cfg.runOnlyValues
      ++ pwSeg14 ++ cfg.axeVersion
      ++ pwSeg15, ?_⟩
    simp [generateHTMLReport, pwHeaderPrefix, generateSummary,
      String.append_assoc]
  · intro now
    refine ⟨wdSeg0 ++ dateToLocaleString now ++ wdSeg1 ++ results.url ++ wdSeg2,
      wdSeg3 ++ results.testEngineVersion
        ++ wdSeg4 ++ toString results.violations.length
        ++ wdSeg5 ++ toString results.passes.length
        ++ wdSeg6 ++ toString results.incomplete.length
        ++ wdSeg7 ++ toString results.inapplicable.length
        ++ wdSeg8 ++ Wd.violationsTable results
        ++ wdSeg9, ?_⟩
    simp [Wd.generateHTMLReport, String.append_assoc]

set_option maxRecDepth 1000000 in
/-- Claim C5 counterexample: the webdriverio `generateHTMLReport` is not
deterministic in `(result, summary, context)`: rendering the identical
scan result at two wall-clock instants yields different bytes, because
the document title interpolates `new Date().toLocaleString()` — the
render-time clock — instead of `result.timestamp`. -/
theorem C5_counterexample :
    Wd.generateHTMLReport exampleScan "1/15/2024, 10:30:00 AM"
      ≠ Wd.generateHTMLReport exampleScan "1/15/2024, 10:31:00 AM" := by
  decide

/-! JSON serialization (`generateJSONReport`).  The report object
`{ summary, results }` is serialized with `JSON.stringify(report, null, 2)`
and the spec requires the round trip: `JSON.parse` of the bytes,
re-serialized, is byte-identical.  The two platform builtins are modeled
below on the fragment the reports inhabit: numbers are the nonnegative
integers (every number in a report is a count; the `NaN` impact buckets
are serialized as `null`, exactly as `JSON.stringify` does). -/

/-- JSON values; object fields in insertion order. -/
inductive Json where
  | null
  | bool (b : Bool)
  | num (n : Nat)
  | str (s : String)
  | arr (elems : List Json)
  | obj (fields : List (String × Json))
deriving Repr

mutual

/-- Recursion budget a parse of this value needs: one unit per value
node and per list element. -/
def jfuel : Json → Nat
  | .null => 1
  | .bool _ => 1
  | .num _ => 1
  | .str _ => 1
  | .arr xs => 1 + lfuel xs
  | .obj fs => 1 + ffuel fs

def lfuel : List Json → Nat
  | [] => 1
  | x :: xs => 1 + jfuel x + lfuel xs

def ffuel : List (String × Json) → Nat
  | [] => 1
  | f :: fs => 1 + jfuel f.2 + ffuel fs

end

/-- The indentation in force at nesting depth `d` under the two-space
gap of `JSON.stringify(report, null, 2)` is `spacesData (2 * d)`. -/
def spacesData (n : Nat) : List Char := List.replicate n ' '

/-- The decimal digits of `n`, most significant first (empty for 0). -/
def digitsOf : Nat → List Char
  | 0 => []
  | n + 1 => digitsOf ((n + 1) / 10) ++ [Char.ofNat (48 + (n + 1) % 10)]
decreasing_by exact Nat.div_lt_self (Nat.succ_pos n) (by omega)

/-- Decimal rendering of a nonnegative integer, as `Number` conversion
to string produces for integral doubles. -/
def natToString (n : Nat) : String :=
  if n = 0 then "0" else ⟨digitsOf n⟩

/-- Lowercase hexadecimal digit. -/
def hexDigitChar (n : Nat) : Char :=
  if n < 10 then Char.ofNat (48 + n) else Char.ofNat (87 + n)

/-- The `QuoteJSONString` escaping of one character: quote and
backslash, the short control escapes, `\u00xx` for the remaining
control characters, everything else literal. -/
def escapeChar (c : Char) : List Char :=
  if c = '"' then ['\\', '"']
  else if c = '\\' then ['\\', '\\']
  else if c = '\x08' then ['\\', 'b']
  else if c = '\t' then ['\\', 't']
  else if c = '\n' then ['\\', 'n']
  else if c = '\x0c' then ['\\', 'f']
  else if c = '\r' then ['\\', 'r']
  else if c.toNat < 32 then
    ['\\', 'u', '0', '0', hexDigitChar (c.toNat / 16), hexDigitChar (c.toNat % 16)]
  else [c]

/-- The escaped body of a JSON string literal. -/
def escBody (s : String) : List Char := (s.data.map escapeChar).flatten

/-- A JSON string literal. -/
def quoteString (s : String) : String := ⟨'"' :: escBody s ++ ['"']⟩

mutual

/-- `JSON.stringify(v, null, 2)` restricted to depth `d`: pretty
printing with a two-space gap, one line per array element or object
field. -/
def stringify : Json → Nat → String
  | .null, _ => "null"
  | .bool true, _ => "true"
  | .bool false, _ => "false"
  | .num n, _ => natToString n
  | .str s, _ => quoteString s
  | .arr [], _ => "[]"
  | .arr (x :: xs), d =>
    "[\n" ++ stringifyItems (x :: xs) (d + 1) ++ "\n" ++ ⟨spacesData (2 * d)⟩ ++ "]"
  | .obj [], _ => "\x7b\x7d"
  | .obj (f :: fs), d =>
    "\x7b\n" ++ stringifyFields (f :: fs) (d + 1) ++ "\n" ++ ⟨spacesData (2 * d)⟩
      ++ "\x7d"

def stringifyItems : List Json → Nat → String
  | [], _ => ""
  | [x], d => ⟨spacesData (2 * d)⟩ ++ stringify x d
  | x :: y :: xs, d =>
    ⟨spacesData (2 * d)⟩ ++ stringify x d ++ ",\n" ++ stringifyItems (y :: xs) d

def stringifyFields : List (String × Json) → Nat → String
  | [], _ => ""
  | [(k, v)], d => ⟨spacesData (2 * d)⟩ ++ quoteString k ++ ": " ++ stringify v d
  | (k, v) :: f :: fs, d =>
    ⟨spacesData (2 * d)⟩ ++ quoteString k ++ ": " ++ stringify v d ++ ",\n"
      ++ stringifyFields (f :: fs) d

end

/-- JSON whitespace. -/
def isWs (c : Char) : Bool :=
  c = ' ' || c = '\t' || c = '\n' || c = '\r'

/-- Drop leading JSON whitespace. -/
def skipWs : List Char → List Char
  | [] => []
  | c :: cs => if isWs c then skipWs cs else c :: cs

/-- Value of a decimal digit character. -/
def digitVal (c : Char) : Option Nat :=
  if 48 ≤ c.toNat ∧ c.toNat ≤ 57 then some (c.toNat - 48) else none

/-- Value of a hexadecimal digit character. -/
def hexVal (c : Char) : Option Nat :=
  if 48 ≤ c.toNat ∧ c.toNat ≤ 57 then some (c.toNat - 48)
  else if 97 ≤ c.toNat ∧ c.toNat ≤ 102 then some (c.toNat - 87)
  else if 65 ≤ c.toNat ∧ c.toNat ≤ 70 then some (c.toNat - 55)
  else none

/-- Consume further decimal digits into the accumulator. -/
def parseDigits : List Char → Nat → Nat × List Char
  | [], acc => (acc, [])
  | c :: cs, acc =>
    match digitVal c with
    | some d => parseDigits cs (acc * 10 + d)
    | none => (acc, c :: cs)

/-- Parse a nonnegative integer literal. -/
def parseNumber : List Char → Option (Nat × List Char)
  | [] => none
  | c :: cs =>
    match digitVal c with
    | some d => some (parseDigits cs d)
    | none => none

/-- Parse the body of a JSON string literal after its opening quote,
returning the decoded characters and the input after the closing
quote.  Raw control characters are rejected, escape sequences are
decoded, `\uXXXX` values outside the scalar range are out of the
model. -/
def parseStringBody : List Char → Option (List Char × List Char)
  | [] => none
  | c :: cs =>
    if c = '"' then some ([], cs)
    else if c = '\\' then
      match cs with
      | [] => none
      | e :: cs' =>
        if e = '"' then (parseStringBody cs').map (fun p => ('"' :: p.1, p.2))
        else if e = '\\' then (parseStringBody cs').map (fun p => ('\\' :: p.1, p.2))
        else if e = '/' then (parseStringBody cs').map (fun p => ('/' :: p.1, p.2))
        else if e = 'b' then (parseStringBody cs').map (fun p => ('\x08' :: p.1, p.2))
        else if e = 'f' then (parseStringBody cs').map (fun p => ('\x0c' :: p.1, p.2))
        else if e = 'n' then (parseStringBody cs').map (fun p => ('\n' :: p.1, p.2))
        else if e = 'r' then (parseStringBody cs').map (fun p => ('\r' :: p.1, p.2))
        else if e = 't' then (parseStringBody cs').map (fun p => ('\t' :: p.1, p.2))
        else if e = 'u' then
          match cs' with
          | h1 :: h2 :: h3 :: h4 :: cs2 =>
            match hexVal h1, hexVal h2, hexVal h3, hexVal h4 with
            | some a, some b, some c3, some d4 =>
              let n := ((a * 16 + b) * 16 + c3) * 16 + d4
              if n.isValidChar then
                (parseStringBody cs2).map (fun p => (Char.ofNat n :: p.1, p.2))
              else none
            | _, _, _, _ => none
          | _ => none
        else none
    else if c.toNat < 32 then none
    else (parseStringBody cs).map (fun p => (c :: p.1, p.2))

/-- One step of the value parser; the parsers for the elements of a
nonempty array and the fields of a nonempty object are supplied as
arguments. -/
def parseValueF (pItems : List Char → Option (List Json × List Char))
    (pFields : List Char → Option (List (String × Json) × List Char))
    (cs : List Char) : Option (Json × List Char) :=
  match skipWs cs with
  | [] => none
  | c :: cs' =>
    if c = 'n' then
      match cs' with
      | 'u' :: 'l' :: 'l' :: r => some (.null, r)
      | _ => none
    else if c = 't' then
      match cs' with
      | 'r' :: 'u' :: 'e' :: r => some (.bool true, r)
      | _ => none
    else if c = 'f' then
      match cs' with
      | 'a' :: 'l' :: 's' :: 'e' :: r => some (.bool false, r)
      | _ => none
    else if c = '"' then
      (parseStringBody cs').map (fun p => (.str ⟨p.1⟩, p.2))
    else if c = '[' then
      match skipWs cs' with
      | ']' :: r => some (.arr [], r)
      | r => (pItems r).map (fun p => (.arr p.1, p.2))
    else if c = '\x7b' then
      match skipWs cs' with
      | '\x7d' :: r => some (.obj [], r)
      | r => (pFields r).map (fun p => (.obj p.1, p.2))
    else
      (parseNumber (c :: cs')).map (fun p => (.num p.1, p.2))

/-- One step of the array-elements parser. -/
def parseItemsF (pValue : List Char → Option (Json × List Char))
    (pItems : List Char → Option (List Json × List Char))
    (cs : List Char) : Option (List Json × List Char) :=
  match pValue cs with
  | none => none
  | some (v, r) =>
    match skipWs r with
    | ',' :: r' => (pItems r').map (fun p => (v :: p.1, p.2))
    | ']' :: r' => some ([v], r')
    | _ => none

/-- One step of the object-fields parser. -/
def parseFieldsF (pValue : List Char → Option (Json × List Char))
    (pFields : List Char → Option (List (String × Json) × List Char))
    (cs : List Char) : Option (List (String × Json) × List Char) :=
  match skipWs cs with
  | '"' :: cs' =>
    match parseStringBody cs' with
    | none => none
    | some (k, r) =>
      match skipWs r with
      | ':' :: r' =>
        match pValue r' with
        | none => none
        | some (v, r2) =>
          match skipWs r2 with
          | ',' :: r3 => (pFields r3).map (fun p => ((⟨k⟩, v) :: p.1, p.2))
          | '\x7d' :: r3 => some ([(⟨k⟩, v)], r3)
          | _ => none
      | _ => none
  | _ => none

mutual

/-- Parse one JSON value (fuel-indexed recursion). -/
def parseValue : Nat → List Char → Option (Json × List Char)
  | 0, _ => none
  | fuel + 1, cs => parseValueF (parseItems fuel) (parseFields fuel) cs

/-- Parse the elements of a nonempty array. -/
def parseItems : Nat → List Char → Option (List Json × List Char)
  | 0, _ => none
  | fuel + 1, cs => parseItemsF (parseValue fuel) (parseItems fuel) cs

/-- Parse the fields of a nonempty object. -/
def parseFields : Nat → List Char → Option (List (String × Json) × List Char)
  | 0, _ => none
  | fuel + 1, cs => parseFieldsF (parseValue fuel) (parseFields fuel) cs

end

/-- Model of `JSON.parse` on the fragment the reports inhabit: parse one
value and require only whitespace to remain.  The recursion budget
`length + 1` exceeds `jfuel v` for every serialized value `v`. -/
def parse (s : String) : Option Json :=
  match parseValue (s.data.length + 1) s.data with
  | some (v, rest) => if skipWs rest = [] then some v else none
  | none => none

theorem charOfNat_toNat (c : Char) : Char.ofNat c.toNat = c := by
  unfold Char.ofNat
  rw [dif_pos (show c.toNat.isValidChar from c.valid)]
  unfold Char.ofNatAux
  apply Char.ext
  apply UInt32.ext
  rfl

theorem charToNat_ofNat (m : Nat) (h : m < 55296) : (Char.ofNat m).toNat = m := by
  unfold Char.ofNat
  rw [dif_pos (Or.inl (by omega))]
  rfl

theorem string_mk_data (s : String) : (⟨s.data⟩ : String) = s := rfl

theorem string_length_data (s : String) : s.length = s.data.length := rfl

theorem string_data_mk (l : List Char) : (⟨l⟩ : String).data = l := rfl

theorem skipWs_cons_not {c : Char} (cs : List Char) (h : isWs c = false) :
    skipWs (c :: cs) = c :: cs := by
  simp [skipWs, h]

theorem skipWs_cons_lit (c : Char) (h : isWs c = false) :
    ∀ cs, skipWs (c :: cs) = c :: cs := fun cs => skipWs_cons_not cs h

theorem skipWs_append_ws (ws cs : List Char) (h : ∀ c ∈ ws, isWs c = true) :
    skipWs (ws ++ cs) = skipWs cs := by
  induction ws with
  | nil => rfl
  | cons c t ih =>
    have hc := h c (by simp)
    simp [skipWs, hc]
    exact ih (fun c hc' => h c (by simp [hc']))

theorem spacesData_ws (n : Nat) : ∀ c ∈ spacesData n, isWs c = true := by
  intro c hc
  rw [spacesData, List.mem_replicate] at hc
  simp [hc.2, isWs]

theorem skipWs_spaces (n : Nat) (cs : List Char) :
    skipWs (spacesData n ++ cs) = skipWs cs :=
  skipWs_append_ws _ _ (spacesData_ws n)

theorem digitsOf_bounds (n : Nat) :
    ∀ c ∈ digitsOf n, 48 ≤ c.toNat ∧ c.toNat ≤ 57 := by
  induction n using Nat.strong_induction_on with
  | _ n ih =>
    cases n with
    | zero => intro c hc; simp [digitsOf] at hc
    | succ m =>
      intro c hc
      rw [digitsOf, List.mem_append] at hc
      rcases hc with hc | hc
      · exact ih ((m + 1) / 10) (Nat.div_lt_self (Nat.succ_pos m) (by omega)) c hc
      · simp at hc
        subst hc
        have hlt : (m + 1) % 10 < 10 := Nat.mod_lt _ (by omega)
        rw [charToNat_ofNat _ (by omega)]
        omega

theorem digitsOf_ne_nil (n : Nat) (h : 0 < n) : digitsOf n ≠ [] := by
  cases n with
  | zero => omega
  | succ m => rw [digitsOf]; simp

theorem natToString_head (n : Nat) :
    ∃ c t, (natToString n).data = c :: t ∧ 48 ≤ c.toNat ∧ c.toNat ≤ 57
      ∧ (∀ x ∈ c :: t, 48 ≤ x.toNat ∧ x.toNat ≤ 57) := by
  rw [natToString]
  by_cases h : n = 0
  · subst h
    refine ⟨'0', [], by simp, by decide, by decide, ?_⟩
    intro x hx; simp at hx; subst hx; exact ⟨by decide, by decide⟩
  · rw [if_neg h]
    obtain ⟨c, t, hct⟩ := List.exists_cons_of_ne_nil (digitsOf_ne_nil n (by omega))
    have hall : ∀ x ∈ c :: t, 48 ≤ x.toNat ∧ x.toNat ≤ 57 := by
      rw [← hct]; exact digitsOf_bounds n
    exact ⟨c, t, by simp [hct], (hall c (by simp)).1, (hall c (by simp)).2, hall⟩

/-- The suffix a number parse must not run into: an empty remainder or a
non-digit first character. -/
def ndStart (cs : List Char) : Prop :=
  ∀ c, cs.head? = some c → digitVal c = none

theorem parseDigits_append (ds : List Char) (acc : Nat) (rest : List Char)
    (hds : ∀ c ∈ ds, 48 ≤ c.toNat ∧ c.toNat ≤ 57) (hrest : ndStart rest) :
    parseDigits (ds ++ rest) acc =
      (ds.foldl (fun a c => a * 10 + (c.toNat - 48)) acc, rest) := by
  induction ds generalizing acc with
  | nil =>
    cases rest with
    | nil => rfl
    | cons c cs =>
      have := hrest c rfl
      simp [parseDigits, this]
  | cons d ds ih =>
    have hd := hds d (by simp)
    have hval : digitVal d = some (d.toNat - 48) := by
      rw [digitVal, if_pos hd]
    simp only [List.cons_append, parseDigits, hval, List.foldl_cons]
    exact ih _ (fun c hc => hds c (by simp [hc]))

theorem foldl_digitsOf (n : Nat) : ∀ acc : Nat,
    (digitsOf n).foldl (fun a c => a * 10 + (c.toNat - 48)) acc
      = acc * 10 ^ (digitsOf n).length + n := by
  induction n using Nat.strong_induction_on with
  | _ n ih =>
    intro acc
    cases n with
    | zero => simp [digitsOf]
    | succ m =>
      rw [digitsOf, List.foldl_append,
        ih ((m + 1) / 10) (Nat.div_lt_self (Nat.succ_pos m) (by omega))]
      have hlt : (m + 1) % 10 < 10 := Nat.mod_lt _ (by omega)
      simp only [List.foldl_cons, List.foldl_nil, List.length_append,
        List.length_singleton]
      rw [charToNat_ofNat _ (by omega)]
      have hdm := Nat.div_add_mod (m + 1) 10
      rw [Nat.pow_succ]
      have h48 : 48 + (m + 1) % 10 - 48 = (m + 1) % 10 := by omega
      rw [h48]
      ring_nf
      omega

theorem parseNumber_natToString (n : Nat) (rest : List Char)
    (hrest : ndStart rest) :
    parseNumber ((natToString n).data ++ rest) = some (n, rest) := by
  obtain ⟨c, t, hdata, h1, h2, hall⟩ := natToString_head n
  have hfold : (c :: t).foldl (fun a x => a * 10 + (x.toNat - 48)) 0 = n := by
    have : (natToString n).data = c :: t := hdata
    by_cases h : n = 0
    · subst h
      have : c = '0' ∧ t = [] := by
        rw [natToString] at hdata
        simp at hdata
        exact ⟨hdata.1.symm, hdata.2⟩
      obtain ⟨rfl, rfl⟩ := this
      decide
    · have hd : (natToString n).data = digitsOf n := by
        rw [natToString, if_neg h]
      rw [hd] at hdata
      rw [← hdata, foldl_digitsOf]
      simp
  rw [hdata, List.cons_append, parseNumber]
  have hval : digitVal c = some (c.toNat - 48) := by
    rw [digitVal, if_pos ⟨h1, h2⟩]
  rw [hval]
  show some (parseDigits (t ++ rest) (c.toNat - 48)) = some (n, rest)
  rw [parseDigits_append t _ rest (fun x hx => hall x (by simp [hx])) hrest]
  simp only [Option.some.injEq, Prod.mk.injEq]
  refine ⟨?_, trivial⟩
  rw [← hfold]
  simp [List.foldl_cons]

theorem hexVal_hexDigitChar (m : Nat) (h : m < 16) :
    hexVal (hexDigitChar m) = some m := by
  interval_cases m <;> decide

theorem parseStringBody_escBody (s : List Char) (rest : List Char) :
    parseStringBody ((s.map escapeChar).flatten ++ '"' :: rest)
      = some (s, rest) := by
  induction s with
  | nil => rw [parseStringBody.eq_def]; simp
  | cons c cs ih =>
    rw [List.map_cons, List.flatten_cons, List.append_assoc]
    rw [escapeChar]
    by_cases h1 : c = '"'
    · subst h1; rw [parseStringBody.eq_def]; simp [ih]
    · rw [if_neg h1]
      by_cases h2 : c = '\\'
      · subst h2; rw [parseStringBody.eq_def]; simp [ih]
      · rw [if_neg h2]
        by_cases h3 : c = '\x08'
        · subst h3; rw [parseStringBody.eq_def]; simp [ih]
        · rw [if_neg h3]
          by_cases h4 : c = '\t'
          · subst h4; rw [parseStringBody.eq_def]; simp [ih]
          · rw [if_neg h4]
            by_cases h5 : c = '\n'
            · subst h5; rw [parseStringBody.eq_def]; simp [ih]
            · rw [if_neg h5]
              by_cases h6 : c = '\x0c'
              · subst h6; rw [parseStringBody.eq_def]; simp [ih]
              · rw [if_neg h6]
                by_cases h7 : c = '\r'
                · subst h7; rw [parseStringBody.eq_def]; simp [ih]
                · rw [if_neg h7]
                  by_cases h8 : c.toNat < 32
                  · rw [if_pos h8]
                    have hdiv : c.toNat / 16 < 16 := by omega
                    have hmod : c.toNat % 16 < 16 := Nat.mod_lt _ (by omega)
                    have harith : (((0 : Nat) * 16 + 0) * 16 + c.toNat / 16) * 16
                        + c.toNat % 16 = c.toNat := by omega
                    have hv : (c.toNat).isValidChar := Or.inl (by omega)
                    have harith2 : c.toNat / 16 * 16 + c.toNat % 16 = c.toNat := by
                      omega
                    simp only [List.cons_append, List.nil_append]
                    rw [parseStringBody.eq_def]
                    simp [hexVal_hexDigitChar _ hdiv, hexVal_hexDigitChar _ hmod,
                      show hexVal '0' = some 0 from by decide,
                      harith, harith2, hv, charOfNat_toNat, ih]
                  · rw [if_neg h8]
                    simp only [List.cons_append, List.nil_append]
                    rw [parseStringBody.eq_def]
                    simp [h1, h2, h8, ih]

theorem isWs_false_of_digit {c : Char} (h1 : 48 ≤ c.toNat) (h2 : c.toNat ≤ 57) :
    isWs c = false := by
  have hs : ¬ c = ' ' := fun he => absurd (he ▸ h1) (by decide)
  have ht : ¬ c = '\t' := fun he => absurd (he ▸ h1) (by decide)
  have hn : ¬ c = '\n' := fun he => absurd (he ▸ h1) (by decide)
  have hr : ¬ c = '\r' := fun he => absurd (he ▸ h1) (by decide)
  simp [isWs, hs, ht, hn, hr]

theorem stringify_head (v : Json) (d : Nat) :
    ∃ c t, (stringify v d).data = c :: t ∧ isWs c = false ∧ c ≠ ']'
      ∧ c ≠ '\x7d' := by
  cases v with
  | null => refine ⟨'n', _, rfl, ?_, ?_, ?_⟩ <;> decide
  | bool b =>
    cases b with
    | true => refine ⟨'t', _, rfl, ?_, ?_, ?_⟩ <;> decide
    | false => refine ⟨'f', _, rfl, ?_, ?_, ?_⟩ <;> decide
  | num n =>
    obtain ⟨c, t, hdata, h1, h2, _⟩ := natToString_head n
    refine ⟨c, t, hdata, isWs_false_of_digit h1 h2, ?_, ?_⟩
    · exact fun he => absurd (he ▸ h2) (by decide)
    · exact fun he => absurd (he ▸ h2) (by decide)
  | str s => refine ⟨'"', _, rfl, ?_, ?_, ?_⟩ <;> decide
  | arr xs =>
    cases xs with
    | nil => refine ⟨'[', _, rfl, ?_, ?_, ?_⟩ <;> decide
    | cons x xs =>
      have hdata : (stringify (Json.arr (x :: xs)) d).data
          = '[' :: ('\n' :: ((stringifyItems (x :: xs) (d + 1)).data
            ++ '\n' :: (spacesData (2 * d) ++ [']']))) := by
        show (("[\n" ++ stringifyItems (x :: xs) (d + 1) ++ "\n"
            ++ (⟨spacesData (2 * d)⟩ : String) ++ "]")).data = _
        simp [String.data_append]
      refine ⟨'[', _, hdata, ?_, ?_, ?_⟩ <;> decide
  | obj fs =>
    cases fs with
    | nil => refine ⟨'\x7b', _, rfl, ?_, ?_, ?_⟩ <;> decide
    | cons f fs =>
      have hdata : (stringify (Json.obj (f :: fs)) d).data
          = '\x7b' :: ('\n' :: ((stringifyFields (f :: fs) (d + 1)).data
            ++ '\n' :: (spacesData (2 * d) ++ ['\x7d']))) := by
        show (("\x7b\n" ++ stringifyFields (f :: fs) (d + 1) ++ "\n"
            ++ (⟨spacesData (2 * d)⟩ : String) ++ "\x7d")).data = _
        simp [String.data_append]
      refine ⟨'\x7b', _, hdata, ?_, ?_, ?_⟩ <;> decide

theorem stringifyItems_head (xs : List Json) (d : Nat) (h : xs ≠ []) :
    ∃ c t, (stringifyItems xs d).data = spacesData (2 * d) ++ c :: t
      ∧ isWs c = false ∧ c ≠ ']' ∧ c ≠ '\x7d' := by
  cases xs with
  | nil => exact absurd rfl h
  | cons x xs =>
    obtain ⟨c, t, hdata, hws, h1, h2⟩ := stringify_head x d
    cases xs with
    | nil =>
      refine ⟨c, t, ?_, hws, h1, h2⟩
      show ((⟨spacesData (2 * d)⟩ : String) ++ stringify x d).data = _
      simp [String.data_append, hdata]
    | cons y ys =>
      refine ⟨c, t ++ (",\n" ++ stringifyItems (y :: ys) d).data, ?_, hws, h1, h2⟩
      show ((⟨spacesData (2 * d)⟩ : String) ++ stringify x d ++ ",\n"
          ++ stringifyItems (y :: ys) d).data = _
      simp [String.data_append, hdata]

theorem stringifyFields_head (fs : List (String × Json)) (d : Nat) (h : fs ≠ []) :
    ∃ t, (stringifyFields fs d).data = spacesData (2 * d) ++ '"' :: t := by
  cases fs with
  | nil => exact absurd rfl h
  | cons f fs =>
    obtain ⟨k, v⟩ := f
    cases fs with
    | nil =>
      refine ⟨escBody k ++ ['"'] ++ (": " ++ stringify v d).data, ?_⟩
      show ((⟨spacesData (2 * d)⟩ : String) ++ quoteString k ++ ": "
          ++ stringify v d).data = _
      simp [String.data_append, quoteString]
    | cons g gs =>
      refine ⟨escBody k ++ ['"'] ++ (": " ++ stringify v d ++ ",\n"
        ++ stringifyFields (g :: gs) d).data, ?_⟩
      show ((⟨spacesData (2 * d)⟩ : String) ++ quoteString k ++ ": "
          ++ stringify v d ++ ",\n" ++ stringifyFields (g :: gs) d).data = _
      simp [String.data_append, quoteString]

theorem parseValue_succ (f : Nat) (cs : List Char) :
    parseValue (f + 1) cs = parseValueF (parseItems f) (parseFields f) cs := rfl

theorem parseItems_succ (f : Nat) (cs : List Char) :
    parseItems (f + 1) cs = parseItemsF (parseValue f) (parseItems f) cs := rfl

theorem parseFields_succ (f : Nat) (cs : List Char) :
    parseFields (f + 1) cs = parseFieldsF (parseValue f) (parseFields f) cs := rfl

theorem parseValue_ws (fuel : Nat) (ws cs : List Char)
    (h : ∀ c ∈ ws, isWs c = true) :
    parseValue fuel (ws ++ cs) = parseValue fuel cs := by
  cases fuel with
  | zero => rfl
  | succ f =>
    rw [parseValue_succ, parseValue_succ, parseValueF, parseValueF,
      skipWs_append_ws ws cs h]

theorem parseItems_ws (fuel : Nat) (ws cs : List Char)
    (h : ∀ c ∈ ws, isWs c = true) :
    parseItems fuel (ws ++ cs) = parseItems fuel cs := by
  cases fuel with
  | zero => rfl
  | succ f =>
    rw [parseItems_succ, parseItems_succ, parseItemsF, parseItemsF,
      parseValue_ws f ws cs h]

theorem parseFields_ws (fuel : Nat) (ws cs : List Char)
    (h : ∀ c ∈ ws, isWs c = true) :
    parseFields fuel (ws ++ cs) = parseFields fuel cs := by
  cases fuel with
  | zero => rfl
  | succ f =>
    rw [parseFields_succ, parseFields_succ, parseFieldsF, parseFieldsF,
      skipWs_append_ws ws cs h]

theorem ndStart_cons {c : Char} (cs : List Char) (h : digitVal c = none) :
    ndStart (c :: cs) := by
  intro x hx
  simp at hx
  subst hx
  exact h

theorem parse_stringify_mutual (fuel : Nat) :
    (∀ v d rest, jfuel v ≤ fuel → ndStart rest →
      parseValue fuel ((stringify v d).data ++ rest) = some (v, rest))
    ∧ (∀ xs d rest, xs ≠ [] → lfuel xs ≤ fuel →
      parseItems fuel ((stringifyItems xs (d + 1)).data
        ++ '\n' :: (spacesData (2 * d) ++ ']' :: rest)) = some (xs, rest))
    ∧ (∀ fs d rest, fs ≠ [] → ffuel fs ≤ fuel →
      parseFields fuel ((stringifyFields fs (d + 1)).data
        ++ '\n' :: (spacesData (2 * d) ++ '\x7d' :: rest)) = some (fs, rest)) := by
  induction fuel with
  | zero =>
    refine ⟨?_, ?_, ?_⟩
    · intro v d rest hf _
      exfalso; cases v <;> simp [jfuel] at hf
    · intro xs d rest hne hf
      exfalso; cases xs with
      | nil => exact hne rfl
      | cons x xs => simp [lfuel] at hf
    · intro fs d rest hne hf
      exfalso; cases fs with
      | nil => exact hne rfl
      | cons f fs => simp [ffuel] at hf
  | succ fuel ih =>
    obtain ⟨ihv, ihi, ihf⟩ := ih
    refine ⟨?_, ?_, ?_⟩
    · intro v d rest hf hrest
      rw [parseValue_succ]
      cases v with
      | null =>
        show parseValueF _ _ ('n' :: 'u' :: 'l' :: 'l' :: rest) = _
        rw [parseValueF, skipWs_cons_not _ (by decide)]
        simp
      | bool b =>
        cases b with
        | true =>
          show parseValueF _ _ ('t' :: 'r' :: 'u' :: 'e' :: rest) = _
          rw [parseValueF, skipWs_cons_not _ (by decide)]
          simp
        | false =>
          show parseValueF _ _ ('f' :: 'a' :: 'l' :: 's' :: 'e' :: rest) = _
          rw [parseValueF, skipWs_cons_not _ (by decide)]
          simp
      | num n =>
        obtain ⟨c, t, hdata, h1, h2, _⟩ := natToString_head n
        have hn' : ¬ c = 'n' := fun he => absurd (he ▸ h2) (by decide)
        have ht' : ¬ c = 't' := fun he => absurd (he ▸ h2) (by decide)
        have hf' : ¬ c = 'f' := fun he => absurd (he ▸ h2) (by decide)
        have hq' : ¬ c = '"' := fun he => absurd (he ▸ h1) (by decide)
        have hb' : ¬ c = '[' := fun he => absurd (he ▸ h2) (by decide)
        have hc' : ¬ c = '\x7b' := fun he => absurd (he ▸ h2) (by decide)
        show parseValueF _ _ ((stringify (Json.num n) d).data ++ rest) = _
        rw [show (stringify (Json.num n) d).data = (natToString n).data from rfl,
          hdata, List.cons_append, parseValueF]
        simp only [skipWs_cons_not _ (isWs_false_of_digit h1 h2)]
        rw [if_neg hn', if_neg ht', if_neg hf', if_neg hq', if_neg hb', if_neg hc']
        rw [show (c :: (t ++ rest)) = ((natToString n).data ++ rest) from by
          rw [hdata]; rfl]
        rw [parseNumber_natToString n rest hrest]
        rfl
      | str s =>
        show parseValueF _ _ ((quoteString s).data ++ rest) = _
        rw [show (quoteString s).data ++ rest
            = '"' :: (escBody s ++ '"' :: rest) from by
          simp [quoteString]]
        rw [parseValueF]
        simp only [skipWs_cons_lit '"' (by decide)]
        simp [escBody, parseStringBody_escBody, string_mk_data]
      | arr xs =>
        cases xs with
        | nil =>
          show parseValueF _ _ ('[' :: ']' :: rest) = _
          rw [parseValueF]
          simp only [skipWs_cons_lit '[' (by decide),
            skipWs_cons_lit ']' (by decide)]
          simp
        | cons x xs =>
          have hlay : (stringify (Json.arr (x :: xs)) d).data ++ rest
              = '[' :: '\n' :: ((stringifyItems (x :: xs) (d + 1)).data
                ++ '\n' :: (spacesData (2 * d) ++ ']' :: rest)) := by
            show (("[\n" ++ stringifyItems (x :: xs) (d + 1) ++ "\n"
                ++ (⟨spacesData (2 * d)⟩ : String) ++ "]")).data ++ rest = _
            simp [String.data_append]
          obtain ⟨c, t, hhead, hws, hne1, hne2⟩ :=
            stringifyItems_head (x :: xs) (d + 1) (by simp)
          have hskip : skipWs ('\n' :: ((stringifyItems (x :: xs) (d + 1)).data
              ++ '\n' :: (spacesData (2 * d) ++ ']' :: rest)))
              = c :: (t ++ '\n' :: (spacesData (2 * d) ++ ']' :: rest)) := by
            rw [show ('\n' :: ((stringifyItems (x :: xs) (d + 1)).data
                ++ '\n' :: (spacesData (2 * d) ++ ']' :: rest)))
              = ['\n'] ++ ((stringifyItems (x :: xs) (d + 1)).data
                ++ '\n' :: (spacesData (2 * d) ++ ']' :: rest)) from rfl]
            rw [skipWs_append_ws _ _ (by intro a ha; simp at ha; subst ha; decide),
              hhead, List.append_assoc, skipWs_spaces, List.cons_append]
            exact skipWs_cons_not _ hws
          have hitems : parseItems fuel
              (c :: (t ++ '\n' :: (spacesData (2 * d) ++ ']' :: rest)))
              = some (x :: xs, rest) := by
            have hstep := parseItems_ws fuel (spacesData (2 * (d + 1)))
              (c :: (t ++ '\n' :: (spacesData (2 * d) ++ ']' :: rest)))
              (spacesData_ws _)
            rw [← hstep]
            have hre : spacesData (2 * (d + 1))
                ++ (c :: (t ++ '\n' :: (spacesData (2 * d) ++ ']' :: rest)))
                = (stringifyItems (x :: xs) (d + 1)).data
                  ++ '\n' :: (spacesData (2 * d) ++ ']' :: rest) := by
              rw [hhead]
              simp
            rw [hre]
            refine ihi (x :: xs) d rest (by simp) ?_
            simp only [jfuel] at hf
            omega
          rw [hlay, parseValueF]
          simp only [skipWs_cons_lit '[' (by decide), hskip,
            show (('[' : Char) = 'n') = False from by simp,
            show (('[' : Char) = 't') = False from by simp,
            show (('[' : Char) = 'f') = False from by simp,
            show (('[' : Char) = '"') = False from by simp,
            show (('[' : Char) = '[') = True from by simp,
            if_false, if_true]
          split
          · rename_i heq
            exfalso
            rw [List.cons.injEq] at heq
            exact hne1 heq.1
          · rw [hitems]
            rfl
      | obj fs =>
        cases fs with
        | nil =>
          show parseValueF _ _ ('\x7b' :: '\x7d' :: rest) = _
          rw [parseValueF]
          simp only [skipWs_cons_lit '\x7b' (by decide),
            skipWs_cons_lit '\x7d' (by decide)]
          simp
        | cons f fs =>
          have hlay : (stringify (Json.obj (f :: fs)) d).data ++ rest
              = '\x7b' :: '\n' :: ((stringifyFields (f :: fs) (d + 1)).data
                ++ '\n' :: (spacesData (2 * d) ++ '\x7d' :: rest)) := by
            show (("\x7b\n" ++ stringifyFields (f :: fs) (d + 1) ++ "\n"
                ++ (⟨spacesData (2 * d)⟩ : String) ++ "\x7d")).data ++ rest = _
            simp [String.data_append]
          obtain ⟨t, hhead⟩ := stringifyFields_head (f :: fs) (d + 1) (by simp)
          have hskip : skipWs ('\n' :: ((stringifyFields (f :: fs) (d + 1)).data
              ++ '\n' :: (spacesData (2 * d) ++ '\x7d' :: rest)))
              = '"' :: (t ++ '\n' :: (spacesData (2 * d) ++ '\x7d' :: rest)) := by
            rw [show ('\n' :: ((stringifyFields (f :: fs) (d + 1)).data
                ++ '\n' :: (spacesData (2 * d) ++ '\x7d' :: rest)))
              = ['\n'] ++ ((stringifyFields (f :: fs) (d + 1)).data
                ++ '\n' :: (spacesData (2 * d) ++ '\x7d' :: rest)) from rfl]
            rw [skipWs_append_ws _ _ (by intro a ha; simp at ha; subst ha; decide),
              hhead, List.append_assoc, skipWs_spaces, List.cons_append]
            exact skipWs_cons_not _ (by decide)
          have hfields : parseFields fuel
              ('"' :: (t ++ '\n' :: (spacesData (2 * d) ++ '\x7d' :: rest)))
              = some (f :: fs, rest) := by
            have hstep := parseFields_ws fuel (spacesData (2 * (d + 1)))
              ('"' :: (t ++ '\n' :: (spacesData (2 * d) ++ '\x7d' :: rest)))
              (spacesData_ws _)
            rw [← hstep]
            have hre : spacesData (2 * (d + 1))
                ++ ('"' :: (t ++ '\n' :: (spacesData (2 * d) ++ '\x7d' :: rest)))
                = (stringifyFields (f :: fs) (d + 1)).data
                  ++ '\n' :: (spacesData (2 * d) ++ '\x7d' :: rest) := by
              rw [hhead]
              simp
            rw [hre]
            refine ihf (f :: fs) d rest (by simp) ?_
            simp only [jfuel] at hf
            omega
          rw [hlay, parseValueF]
          simp only [skipWs_cons_lit '\x7b' (by decide), hskip,
            show (('\x7b' : Char) = 'n') = False from by simp,
            show (('\x7b' : Char) = 't') = False from by simp,
            show (('\x7b' : Char) = 'f') = False from by simp,
            show (('\x7b' : Char) = '"') = False from by simp,
            show (('\x7b' : Char) = '[') = False from by simp,
            show (('\x7b' : Char) = '\x7b') = True from by simp,
            if_false, if_true]
          split
          · rename_i heq
            exfalso
            rw [List.cons.injEq] at heq
            exact absurd heq.1 (by decide)
          · rw [hfields]
            rfl
    · intro xs d rest hne hf
      cases xs with
      | nil => exact absurd rfl hne
      | cons x xs =>
        rw [parseItems_succ, parseItemsF]
        cases xs with
        | nil =>
          have hlay : (stringifyItems [x] (d + 1)).data
              ++ '\n' :: (spacesData (2 * d) ++ ']' :: rest)
              = spacesData (2 * (d + 1))
                ++ ((stringify x (d + 1)).data
                  ++ '\n' :: (spacesData (2 * d) ++ ']' :: rest)) := by
            show ((⟨spacesData (2 * (d + 1))⟩ : String)
                ++ stringify x (d + 1)).data ++ _ = _
            simp [String.data_append]
          rw [hlay]
          have hv : parseValue fuel (spacesData (2 * (d + 1))
              ++ ((stringify x (d + 1)).data
                ++ '\n' :: (spacesData (2 * d) ++ ']' :: rest)))
              = some (x, '\n' :: (spacesData (2 * d) ++ ']' :: rest)) := by
            rw [parseValue_ws _ _ _ (spacesData_ws _)]
            refine ihv x (d + 1) _ ?_ (ndStart_cons _ (by decide))
            simp only [lfuel] at hf
            omega
          rw [hv]
          have hsk : skipWs ('\n' :: (spacesData (2 * d) ++ ']' :: rest))
              = ']' :: rest := by
            rw [show ('\n' :: (spacesData (2 * d) ++ ']' :: rest))
                = ['\n'] ++ (spacesData (2 * d) ++ ']' :: rest) from rfl,
              skipWs_append_ws _ _ (by intro a ha; simp at ha; subst ha; decide),
              skipWs_spaces]
            exact skipWs_cons_not _ (by decide)
          simp only [hsk]
        | cons y ys =>
          have hlay : (stringifyItems (x :: y :: ys) (d + 1)).data
              ++ '\n' :: (spacesData (2 * d) ++ ']' :: rest)
              = spacesData (2 * (d + 1))
                ++ ((stringify x (d + 1)).data
                  ++ ',' :: '\n' :: ((stringifyItems (y :: ys) (d + 1)).data
                    ++ '\n' :: (spacesData (2 * d) ++ ']' :: rest))) := by
            show ((⟨spacesData (2 * (d + 1))⟩ : String) ++ stringify x (d + 1)
                ++ ",\n" ++ stringifyItems (y :: ys) (d + 1)).data ++ _ = _
            simp [String.data_append]
          rw [hlay]
          have hv : parseValue fuel (spacesData (2 * (d + 1))
              ++ ((stringify x (d + 1)).data
                ++ ',' :: '\n' :: ((stringifyItems (y :: ys) (d + 1)).data
                  ++ '\n' :: (spacesData (2 * d) ++ ']' :: rest))))
              = some (x, ',' :: '\n' :: ((stringifyItems (y :: ys) (d + 1)).data
                ++ '\n' :: (spacesData (2 * d) ++ ']' :: rest))) := by
            rw [parseValue_ws _ _ _ (spacesData_ws _)]
            refine ihv x (d + 1) _ ?_ (ndStart_cons _ (by decide))
            simp only [lfuel] at hf
            omega
          rw [hv]
          simp only [skipWs_cons_lit ',' (by decide)]
          have hrec : parseItems fuel
              ('\n' :: ((stringifyItems (y :: ys) (d + 1)).data
                ++ '\n' :: (spacesData (2 * d) ++ ']' :: rest)))
              = some (y :: ys, rest) := by
            rw [show ('\n' :: ((stringifyItems (y :: ys) (d + 1)).data
                ++ '\n' :: (spacesData (2 * d) ++ ']' :: rest)))
              = ['\n'] ++ ((stringifyItems (y :: ys) (d + 1)).data
                ++ '\n' :: (spacesData (2 * d) ++ ']' :: rest)) from rfl,
              parseItems_ws _ _ _ (by intro a ha; simp at ha; subst ha; decide)]
            refine ihi (y :: ys) d rest (by simp) ?_
            simp only [lfuel] at hf ⊢
            omega
          simp only [hrec]
          rfl
    · intro fs d rest hne hf
      cases fs with
      | nil => exact absurd rfl hne
      | cons f fs =>
        obtain ⟨k, v⟩ := f
        rw [parseFields_succ, parseFieldsF]
        cases fs with
        | nil =>
          have hlay : (stringifyFields [(k, v)] (d + 1)).data
              ++ '\n' :: (spacesData (2 * d) ++ '\x7d' :: rest)
              = spacesData (2 * (d + 1))
                ++ ('"' :: (escBody k ++ '"' :: ':' :: ' '
                  :: ((stringify v (d + 1)).data
                    ++ '\n' :: (spacesData (2 * d) ++ '\x7d' :: rest)))) := by
            show ((⟨spacesData (2 * (d + 1))⟩ : String) ++ quoteString k ++ ": "
                ++ stringify v (d + 1)).data ++ _ = _
            simp [String.data_append, quoteString]
          rw [hlay, skipWs_spaces]
          simp only [skipWs_cons_lit '"' (by decide)]
          rw [show escBody k ++ '"' :: ':' :: ' '
              :: ((stringify v (d + 1)).data
                ++ '\n' :: (spacesData (2 * d) ++ '\x7d' :: rest))
            = (k.data.map escapeChar).flatten ++ '"' :: (':' :: ' '
              :: ((stringify v (d + 1)).data
                ++ '\n' :: (spacesData (2 * d) ++ '\x7d' :: rest))) from rfl,
            parseStringBody_escBody]
          simp only [skipWs_cons_lit ':' (by decide)]
          have hv : parseValue fuel (' ' :: ((stringify v (d + 1)).data
              ++ '\n' :: (spacesData (2 * d) ++ '\x7d' :: rest)))
              = some (v, '\n' :: (spacesData (2 * d) ++ '\x7d' :: rest)) := by
            rw [show (' ' :: ((stringify v (d + 1)).data
                ++ '\n' :: (spacesData (2 * d) ++ '\x7d' :: rest)))
              = [' '] ++ ((stringify v (d + 1)).data
                ++ '\n' :: (spacesData (2 * d) ++ '\x7d' :: rest)) from rfl,
              parseValue_ws _ _ _ (by intro a ha; simp at ha; subst ha; decide)]
            refine ihv v (d + 1) _ ?_ (ndStart_cons _ (by decide))
            simp only [ffuel] at hf
            omega
          rw [hv]
          have hsk : skipWs ('\n' :: (spacesData (2 * d) ++ '\x7d' :: rest))
              = '\x7d' :: rest := by
            rw [show ('\n' :: (spacesData (2 * d) ++ '\x7d' :: rest))
                = ['\n'] ++ (spacesData (2 * d) ++ '\x7d' :: rest) from rfl,
              skipWs_append_ws _ _ (by intro a ha; simp at ha; subst ha; decide),
              skipWs_spaces]
            exact skipWs_cons_not _ (by decide)
          simp only [hsk]
        | cons g gs =>
          have hlay : (stringifyFields ((k, v) :: g :: gs) (d + 1)).data
              ++ '\n' :: (spacesData (2 * d) ++ '\x7d' :: rest)
              = spacesData (2 * (d + 1))
                ++ ('"' :: (escBody k ++ '"' :: ':' :: ' '
                  :: ((stringify v (d + 1)).data
                    ++ ',' :: '\n' :: ((stringifyFields (g :: gs) (d + 1)).data
                      ++ '\n' :: (spacesData (2 * d) ++ '\x7d' :: rest))))) := by
            show ((⟨spacesData (2 * (d + 1))⟩ : String) ++ quoteString k ++ ": "
                ++ stringify v (d + 1) ++ ",\n"
                ++ stringifyFields (g :: gs) (d + 1)).data ++ _ = _
            simp [String.data_append, quoteString]
          rw [hlay, skipWs_spaces]
          simp only [skipWs_cons_lit '"' (by decide)]
          rw [show escBody k ++ '"' :: ':' :: ' '
              :: ((stringify v (d + 1)).data
                ++ ',' :: '\n' :: ((stringifyFields (g :: gs) (d + 1)).data
                  ++ '\n' :: (spacesData (2 * d) ++ '\x7d' :: rest)))
            = (k.data.map escapeChar).flatten ++ '"' :: (':' :: ' '
              :: ((stringify v (d + 1)).data
                ++ ',' :: '\n' :: ((stringifyFields (g :: gs) (d + 1)).data
                  ++ '\n' :: (spacesData (2 * d) ++ '\x7d' :: rest)))) from rfl,
            parseStringBody_escBody]
          simp only [skipWs_cons_lit ':' (by decide)]
          have hv : parseValue fuel (' ' :: ((stringify v (d + 1)).data
              ++ ',' :: '\n' :: ((stringifyFields (g :: gs) (d + 1)).data
                ++ '\n' :: (spacesData (2 * d) ++ '\x7d' :: rest))))
              = some (v, ',' :: '\n' :: ((stringifyFields (g :: gs) (d + 1)).data
                ++ '\n' :: (spacesData (2 * d) ++ '\x7d' :: rest))) := by
            rw [show (' ' :: ((stringify v (d + 1)).data
                ++ ',' :: '\n' :: ((stringifyFields (g :: gs) (d + 1)).data
                  ++ '\n' :: (spacesData (2 * d) ++ '\x7d' :: rest))))
              = [' '] ++ ((stringify v (d + 1)).data
                ++ ',' :: '\n' :: ((stringifyFields (g :: gs) (d + 1)).data
                  ++ '\n' :: (spacesData (2 * d) ++ '\x7d' :: rest))) from rfl,
              parseValue_ws _ _ _ (by intro a ha; simp at ha; subst ha; decide)]
            refine ihv v (d + 1) _ ?_ (ndStart_cons _ (by decide))
            simp only [ffuel] at hf
            omega
          rw [hv]
          simp only [skipWs_cons_lit ',' (by decide)]
          have hrec : parseFields fuel
              ('\n' :: ((stringifyFields (g :: gs) (d + 1)).data
                ++ '\n' :: (spacesData (2 * d) ++ '\x7d' :: rest)))
              = some (g :: gs, rest) := by
            rw [show ('\n' :: ((stringifyFields (g :: gs) (d + 1)).data
                ++ '\n' :: (spacesData (2 * d) ++ '\x7d' :: rest)))
              = ['\n'] ++ ((stringifyFields (g :: gs) (d + 1)).data
                ++ '\n' :: (spacesData (2 * d) ++ '\x7d' :: rest)) from rfl,
              parseFields_ws _ _ _ (by intro a ha; simp at ha; subst ha; decide)]
            refine ihf (g :: gs) d rest (by simp) ?_
            simp only [ffuel] at hf ⊢
            omega
          simp only [hrec]
          simp [string_mk_data]

mutual

theorem jfuel_le (v : Json) (d : Nat) : jfuel v ≤ (stringify v d).data.length := by
  cases v with
  | null => simp [jfuel, stringify]
  | bool b => cases b <;> simp [jfuel, stringify]
  | num n =>
    obtain ⟨c, t, hdata, _, _, _⟩ := natToString_head n
    show jfuel (Json.num n) ≤ (natToString n).data.length
    rw [hdata]
    simp [jfuel]
  | str s =>
    show jfuel (Json.str s) ≤ (quoteString s).data.length
    simp [jfuel, quoteString]
  | arr xs =>
    cases xs with
    | nil => simp [jfuel, lfuel, stringify]
    | cons x xs =>
      have hlay : (stringify (Json.arr (x :: xs)) d).data
          = '[' :: ('\n' :: ((stringifyItems (x :: xs) (d + 1)).data
            ++ '\n' :: (spacesData (2 * d) ++ [']']))) := by
        show (("[\n" ++ stringifyItems (x :: xs) (d + 1) ++ "\n"
            ++ (⟨spacesData (2 * d)⟩ : String) ++ "]")).data = _
        simp [String.data_append]
      have hi := lfuel_le (x :: xs) d (by simp)
      rw [hlay]
      simp only [jfuel, List.length_cons, List.length_append]
      omega
  | obj fs =>
    cases fs with
    | nil => simp [jfuel, ffuel, stringify]
    | cons f fs =>
      have hlay : (stringify (Json.obj (f :: fs)) d).data
          = '\x7b' :: ('\n' :: ((stringifyFields (f :: fs) (d + 1)).data
            ++ '\n' :: (spacesData (2 * d) ++ ['\x7d']))) := by
        show (("\x7b\n" ++ stringifyFields (f :: fs) (d + 1) ++ "\n"
            ++ (⟨spacesData (2 * d)⟩ : String) ++ "\x7d")).data = _
        simp [String.data_append]
      have hi := ffuel_le (f :: fs) d (by simp)
      rw [hlay]
      simp only [jfuel, List.length_cons, List.length_append]
      omega

theorem lfuel_le (xs : List Json) (d : Nat) (h : xs ≠ []) :
    lfuel xs ≤ (stringifyItems xs (d + 1)).data.length := by
  cases xs with
  | nil => exact absurd rfl h
  | cons x xs =>
    cases xs with
    | nil =>
      have hx := jfuel_le x (d + 1)
      show lfuel [x] ≤ ((⟨spacesData (2 * (d + 1))⟩ : String)
        ++ stringify x (d + 1)).data.length
      simp only [lfuel, String.data_append, List.length_append, string_data_mk,
        spacesData, List.length_replicate]
      omega
    | cons y ys =>
      have hx := jfuel_le x (d + 1)
      have hr := lfuel_le (y :: ys) d (by simp)
      show lfuel (x :: y :: ys) ≤ ((⟨spacesData (2 * (d + 1))⟩ : String)
        ++ stringify x (d + 1) ++ ",\n"
        ++ stringifyItems (y :: ys) (d + 1)).data.length
      simp only [lfuel, String.data_append, List.length_append, string_data_mk,
        spacesData, List.length_replicate,
        show (",\n" : String).data.length = 2 from rfl]
      simp only [lfuel] at hr
      omega

theorem ffuel_le (fs : List (String × Json)) (d : Nat) (h : fs ≠ []) :
    ffuel fs ≤ (stringifyFields fs (d + 1)).data.length := by
  cases fs with
  | nil => exact absurd rfl h
  | cons f fs =>
    obtain ⟨k, v⟩ := f
    cases fs with
    | nil =>
      have hv := jfuel_le v (d + 1)
      show ffuel [(k, v)] ≤ ((⟨spacesData (2 * (d + 1))⟩ : String)
        ++ quoteString k ++ ": " ++ stringify v (d + 1)).data.length
      simp only [ffuel, String.data_append, List.length_append, string_data_mk,
        spacesData, List.length_replicate, quoteString, List.length_cons,
        show (": " : String).data.length = 2 from rfl]
      omega
    | cons g gs =>
      have hv := jfuel_le v (d + 1)
      have hr := ffuel_le (g :: gs) d (by simp)
      show ffuel ((k, v) :: g :: gs) ≤ ((⟨spacesData (2 * (d + 1))⟩ : String)
        ++ quoteString k ++ ": " ++ stringify v (d + 1) ++ ",\n"
        ++ stringifyFields (g :: gs) (d + 1)).data.length
      simp only [ffuel, String.data_append, List.length_append, string_data_mk,
        spacesData, List.length_replicate, quoteString, List.length_cons,
        show (": " : String).data.length = 2 from rfl,
        show (",\n" : String).data.length = 2 from rfl]
      simp only [ffuel] at hr
      omega

end

/-- The parse of a pretty-printed value recovers the value exactly. -/
theorem parse_stringify (v : Json) : parse (stringify v 0) = some v := by
  rw [parse]
  have h := (parse_stringify_mutual ((stringify v 0).data.length + 1)).1 v 0 []
    (by have := jfuel_le v 0; omega) (by intro c hc; simp at hc)
  rw [List.append_nil] at h
  rw [h]
  simp [skipWs]

/-- Serialization of one `violationsByImpact` value: `JSON.stringify`
turns the `NaN` of an unrecognized-impact bucket into `null`. -/
def jsonOfImpactVal : Option Nat → Json
  | some n => .num n
  | none => .null

/-- The `violationsByImpact` object, fields in insertion order. -/
def jsonOfImpactMap (m : ImpactMap) : Json :=
  .obj (m.map (fun p => (p.1, jsonOfImpactVal p.2)))

/-- The summary as serialized into the report. -/
def jsonOfSummary (s : Summary) : Json :=
  .obj [("url", .str s.url), ("timestamp", .str s.timestamp),
    ("browser", .str s.browser), ("totalElements", .num s.totalElements),
    ("passes", .num s.passes), ("violations", .num s.violations),
    ("incomplete", .num s.incomplete), ("inapplicable", .num s.inapplicable),
    ("violationsByImpact", jsonOfImpactMap s.violationsByImpact)]

/-- An affected node as serialized; an absent `html` key is omitted,
as `JSON.stringify` omits `undefined`-valued properties. -/
def jsonOfNode (n : AffectedNode) : Json :=
  .obj (("target", .arr (n.target.map Json.str))
    :: (match n.html with
        | some h => [("html", Json.str h)]
        | none => []))

/-- A rule outcome as serialized; a missing impact is the JSON `null`,
as the axe engine emits it. -/
def jsonOfOutcome (v : RuleOutcome) : Json :=
  .obj [("id", .str v.id), ("description", .str v.description),
    ("help", .str v.help), ("helpUrl", .str v.helpUrl),
    ("impact", match v.impact with | some s => .str s | none => .null),
    ("tags", .arr (v.tags.map Json.str)),
    ("nodes", .arr (v.nodes.map jsonOfNode))]

/-- The raw scan result as serialized into the report (restricted to the
modeled fields). -/
def jsonOfScanResult (r : ScanResult) : Json :=
  .obj [("url", .str r.url), ("timestamp", .str r.timestamp),
    ("testEngine", .obj [("version", .str r.testEngineVersion)]),
    ("passes", .arr (r.passes.map jsonOfOutcome)),
    ("violations", .arr (r.violations.map jsonOfOutcome)),
    ("incomplete", .arr (r.incomplete.map jsonOfOutcome)),
    ("inapplicable", .arr (r.inapplicable.map jsonOfOutcome))]

/-- The report object of `generateJSONReport`:
`{ summary: this.generateSummary(results), results: results }`. -/
def renderJSON (results : ScanResult) (summary : Summary) : Json :=
  .obj [("summary", jsonOfSummary summary),
    ("results", jsonOfScanResult results)]

/-- `generateJSONReport`: the bytes written to `report.json`, i.e.
`JSON.stringify(report, null, 2)`. -/
def generateJSONReport (browser : String) (results : ScanResult) : String :=
  stringify (renderJSON results (generateSummary browser results)) 0

theorem json_str_injective : Function.Injective Json.str :=
  fun _ _ h => by injection h

theorem jsonOfNode_injective : Function.Injective jsonOfNode := by
  intro a b h
  obtain ⟨ta, ha⟩ := a
  obtain ⟨tb, hb⟩ := b
  simp only [jsonOfNode, Json.obj.injEq, List.cons.injEq, Prod.mk.injEq] at h
  obtain ⟨⟨-, harr⟩, hrest⟩ := h
  simp only [Json.arr.injEq] at harr
  have ht : ta = tb := List.map_injective_iff.mpr json_str_injective harr
  subst ht
  cases ha <;> cases hb <;> simp_all

theorem jsonOfOutcome_injective : Function.Injective jsonOfOutcome := by
  intro a b h
  obtain ⟨ia, da, ha, ua, ima, ta, na⟩ := a
  obtain ⟨ib, db, hb, ub, imb, tb, nb⟩ := b
  simp only [jsonOfOutcome, Json.obj.injEq, List.cons.injEq, Prod.mk.injEq,
    Json.str.injEq, Json.arr.injEq, and_true, true_and] at h
  obtain ⟨h1, h2, h3, h4, h5, h6, h7⟩ := h
  have htags : ta = tb := List.map_injective_iff.mpr json_str_injective h6
  have hnodes : na = nb := List.map_injective_iff.mpr jsonOfNode_injective h7
  have him : ima = imb := by
    cases ima <;> cases imb <;> simp_all
  simp_all

theorem jsonOfScanResult_injective : Function.Injective jsonOfScanResult := by
  intro a b h
  obtain ⟨ua, ta, ea, pa, va, ia, na⟩ := a
  obtain ⟨ub, tb, eb, pb, vb, ib, nb⟩ := b
  simp only [jsonOfScanResult, Json.obj.injEq, List.cons.injEq, Prod.mk.injEq,
    Json.str.injEq, Json.arr.injEq, and_true, true_and] at h
  obtain ⟨h1, h2, h3, h4, h5, h6, h7⟩ := h
  have hp := List.map_injective_iff.mpr jsonOfOutcome_injective h4
  have hv := List.map_injective_iff.mpr jsonOfOutcome_injective h5
  have hi := List.map_injective_iff.mpr jsonOfOutcome_injective h6
  have hn := List.map_injective_iff.mpr jsonOfOutcome_injective h7
  simp_all

/-- Claim C4: the serialized report is exactly
`{ summary: s, results: r }` with the raw result embedded verbatim (the
result serialization is injective, so nothing is filtered or
re-shaped), and the serialization round-trips: decoding the report
bytes succeeds with exactly the report object, and re-encoding the
decoded value is byte-identical to the original bytes (stable field
order, no lossy numeric coercion on the integer counts). -/
theorem C4_json_roundtrip (b : String) (r : ScanResult) :
    (renderJSON r (generateSummary b r)
      = Json.obj [("summary", jsonOfSummary (generateSummary b r)),
                  ("results", jsonOfScanResult r)])
    ∧ Function.Injective jsonOfScanResult
    ∧ parse (generateJSONReport b r)
        = some (renderJSON r (generateSummary b r))
    ∧ (parse (generateJSONReport b r)).map (fun v => stringify v 0)
        = some (generateJSONReport b r) := by
  refine ⟨rfl, jsonOfScanResult_injective, parse_stringify _, ?_⟩
  rw [generateJSONReport, parse_stringify]
  rfl

end Axe
